import Mathlib

/-!
# Appointment layout resolution (`js/ui/scheduler/appointmentSettingsGenerator.js`)

A shallow embedding of the two settings strategies of the scheduler
(`AppointmentSettingsGeneratorBaseStrategy` and
`AppointmentSettingsGeneratorVirtualStrategy`) together with the properties
of them that are stated in the specification.

Conventions of the embedding.

* A JavaScript `Date` is its time value: an integer number of milliseconds
  (`Int`).  Both dates of an appointment and of an occurrence are present.
* A JavaScript number that is not a time value (a timezone offset in hours, the
  start-day hour) is a rational number.
* Everything the generator reaches through `this.scheduler`, the work space,
  the time zone calculator, `dateUtils`, `timeZoneUtils` and the recurrence
  processor is a field of the record `Scheduler`: a stable snapshot of the
  collaborators for one call of `create`.
* Objects mutated in place by the source are rebuilt: a function returns the
  record as it is after the mutation.
* A `TypeError` raised by the source is the error value of `Except`.
-/

namespace AppointmentSettingsGenerator

/-! ## Data model -/

/-- The units `dateUtils.dateToMilliseconds` is called with in the generator. -/
inductive TimeUnit where
  | minute
  | hour
deriving DecidableEq, Repr

/-- Modelled from the spec: `dateUtils.dateToMilliseconds` (`core/utils/date`
is not among the sources): a minute is 60000 ms and an hour is 3600000 ms. -/
def toMs : TimeUnit → Int
  | .minute => 60000
  | .hour => 3600000

/-- The time value of `new Date(t)` for a number `t`: the fraction is dropped
(rounding towards zero). -/
def newDate (t : ℚ) : Int :=
  if 0 ≤ t then ⌊t⌋ else ⌈t⌉

/-- Modelled from the spec: `isEmptyObject` (`core/utils/type` is not among the
sources) applied to the `timeZone` option, which is a string: no timezone is
configured exactly when the string is empty. -/
def isEmptyObject (timeZoneName : String) : Bool :=
  timeZoneName.isEmpty

/-- Modelled from the spec: `dateUtils.normalizeDate(date, min)`
(`core/utils/date` is not among the sources): the date clamped to be no
earlier than `min`. -/
def normalizeDate (date min : Int) : Int :=
  if date < min then min else date

/-- An occurrence `{startDate, endDate}` in the appointment's own time; the
Virtual strategy adds `groupIndex`. -/
structure Occurrence where
  startDate : Int
  endDate : Int
  groupIndex : Option Nat := none
deriving DecidableEq, Repr

/-- A grid occurrence: dates in grid time and the occurrence it comes from. -/
structure GridAppointment where
  startDate : Int
  endDate : Int
  source : Occurrence
deriving DecidableEq, Repr

/-- The read view `scheduler.createAppointmentAdapter(rawAppointment)`. -/
structure AppointmentAdapter (Raw : Type) where
  startDate : Int
  endDate : Int
  duration : Int
  isRecurrent : Bool
  recurrenceRule : String
  recurrenceException : String
  source : Raw

/-- The options record handed to `generateDates`. -/
structure RecurrenceOptions where
  rule : String
  exception : String
  min : Int
  max : Int
  firstDayOfWeek : Nat
  start : Int
  «end» : Int
  getPostProcessedException : Int → Int

/-- The `path` argument of `timeZoneCalculator.createDate`. -/
inductive Path where
  | toGrid
  | fromGrid
deriving DecidableEq, Repr

/-- The error a property access on `undefined` raises. -/
inductive JsError where
  | typeError
deriving DecidableEq, Repr

deriving instance DecidableEq for Except

/-- The `info` the generator attaches to a coordinate. -/
structure Info where
  appointment : GridAppointment
  sourceAppointment : Occurrence
deriving DecidableEq, Repr

/-- A position record of the work space, decorated with `info`. -/
structure Coordinate (Pos : Type) where
  position : Pos
  info : Info
deriving DecidableEq, Repr

/-- The collaborators of the generator, as seen during one call of `create`. -/
structure Scheduler (Raw Res Pos : Type) where
  /-- Source: `scheduler.createAppointmentAdapter(rawAppointment)` -/
  createAppointmentAdapter : Raw → AppointmentAdapter Raw
  /-- Source: `scheduler._resourcesManager.getResourcesFromItem(rawAppointment)` -/
  getResourcesFromItem : Raw → Res
  /-- Source: `scheduler.appointmentTakesAllDay(rawAppointment)` -/
  appointmentTakesAllDay : Raw → Bool
  /-- Source: `scheduler.option('timeZone')`, the empty string when not configured -/
  timeZone : String
  /-- Source: `scheduler.getStartViewDate()` -/
  getStartViewDate : Int
  /-- Source: `scheduler._getCurrentViewOption('startDayHour')` -/
  startDayHour : ℚ
  /-- Source: `scheduler.getFirstDayOfWeek()` -/
  getFirstDayOfWeek : Nat
  /-- Source: `scheduler.isVirtualScrolling()` -/
  isVirtualScrolling : Bool
  /-- Source: `timeZoneCalculator.getOffsets(date).common`, in hours -/
  getOffsets : Int → ℚ
  /-- Source: `timeZoneCalculator.createDate(date, { path })` -/
  createDate : Int → Path → Int
  /-- Source: `timeZoneUtils.isEqualLocalTimeZone(timeZoneName, date)` -/
  isEqualLocalTimeZone : String → Int → Bool
  /-- Source: `timeZoneUtils.createUTCDateWithLocalOffset(date)` -/
  createUTCDateWithLocalOffset : Int → Int
  /-- Source: `timeZoneUtils.createDateFromUTCWithLocalOffset(date)` -/
  createDateFromUTCWithLocalOffset : Int → Int
  /-- Source: `date.getTimezoneOffset()`, the offset of the local zone in minutes -/
  getTimezoneOffset : Int → Int
  /-- Source: `date.getHours()`, the hour of the day in the local zone -/
  getHours : Int → Int
  /-- the date after `date.setHours(date.getHours() - 1)` -/
  setHoursMinusOne : Int → Int
  /-- the time value after `date.setMilliseconds(ms)` -/
  setMilliseconds : Int → Int → Int
  /-- Source: `dateUtils.trimTime(date)` -/
  trimTime : Int → Int
  /-- Source: `dateUtils.roundDateByStartDayHour(date, startDayHour)` -/
  roundDateByStartDayHour : Int → ℚ → Int
  /-- Source: `dateUtils.getDatesOfInterval(startDate, endDate, { milliseconds })` -/
  getDatesOfInterval : Int → Int → Int → List Int
  /-- Source: `getRecurrenceProcessor().generateDates(options)` -/
  generateDates : RecurrenceOptions → List Int
  /-- Source: `workspace.supportAllDayRow()` -/
  supportAllDayRow : Bool
  /-- Source: `workspace.getDateRange()` -/
  getDateRange : Int × Int
  /-- Source: `workspace.getIntervalDuration(allDay)` -/
  getIntervalDuration : Bool → Int
  /-- Source: `workspace.getCoordinatesByDateInGroup(date, resources, isAllDay, groupIndex)` -/
  getCoordinatesByDateInGroup : Int → Res → Bool → Option Nat → List Pos
  /-- Source: `workspace.getCoordinatesByDate(date, groupIndex, allDay)` -/
  getCoordinatesByDate : Int → Option Nat → Bool → Option Pos
  /-- Source: `workspace._getGroupCount()` -/
  getGroupCount : Nat
  /-- Source: `workspace._getGroupIndexes(resources)` -/
  getGroupIndexes : Res → List Nat
  /-- Source: `viewDataProvider.getGroupIndices()` -/
  getGroupIndices : List Nat
  /-- Source: `viewDataProvider.getGroupStartDate(groupIndex)` -/
  getGroupStartDate : Nat → Option Int
  /-- Source: `viewDataProvider.findGroupCellStartDate(groupIndex, startDate, endDate, isAllDay)` -/
  findGroupCellStartDate : Option Nat → Int → Int → Bool → Option Int
  /-- Source: `viewDataProvider.isGroupIntersectDateInterval(groupIndex, startDate, endDate)` -/
  isGroupIntersectDateInterval : Option Nat → Int → Int → Bool
  /-- Source: `renderingStrategy.needSeparateAppointment(allDay)` -/
  needSeparateAppointment : Bool → Bool
  /-- Source: `renderingStrategy.normalizeEndDateByViewEnd(rawAppointment, endDate)` -/
  normalizeEndDateByViewEnd : Raw → Int → Int

variable {Raw Res Pos : Type}

/-! ## The Base strategy -/

namespace BaseStrategy

/-- Source: `_isAllDayAppointment(rawAppointment)` -/
def _isAllDayAppointment (scheduler : Scheduler Raw Res Pos) (rawAppointment : Raw) : Bool :=
  scheduler.appointmentTakesAllDay rawAppointment && scheduler.supportAllDayRow

/-- Source: `_canProcessNotNativeTimezoneDates(appointment)` -/
def _canProcessNotNativeTimezoneDates (scheduler : Scheduler Raw Res Pos)
    (appointment : AppointmentAdapter Raw) : Bool :=
  let timeZoneName := scheduler.timeZone
  let isTimeZoneSet := !isEmptyObject timeZoneName
  if !isTimeZoneSet then false
  else if !appointment.isRecurrent then false
  else !scheduler.isEqualLocalTimeZone timeZoneName appointment.startDate

/-- Source: `_getProcessedNotNativeDateIfCrossDST(date, offset)` -/
def _getProcessedNotNativeDateIfCrossDST (scheduler : Scheduler Raw Res Pos)
    (date : Int) (offset : ℚ) : ℚ :=
  if offset < 0 then
    let newDate := date
    let newDateMinusOneHour := scheduler.setHoursMinusOne newDate
    let newDateOffset := scheduler.getOffsets newDate
    let newDateMinusOneHourOffset := scheduler.getOffsets newDateMinusOneHour
    if newDateOffset ≠ newDateMinusOneHourOffset then 0 else offset
  else offset

/-- Source: `_createExtremeRecurrenceDates(rawAppointment)` -/
def _createExtremeRecurrenceDates (scheduler : Scheduler Raw Res Pos)
    (rawAppointment : Raw) : Int × Int :=
  let dateRange := scheduler.getDateRange
  let startViewDate :=
    if scheduler.appointmentTakesAllDay rawAppointment then scheduler.trimTime dateRange.1
    else dateRange.1
  let commonTimeZone := scheduler.timeZone
  let minRecurrenceDate :=
    if commonTimeZone ≠ "" then scheduler.createDate startViewDate .fromGrid else startViewDate
  let maxRecurrenceDate :=
    if commonTimeZone ≠ "" then scheduler.createDate dateRange.2 .fromGrid else dateRange.2
  (minRecurrenceDate, maxRecurrenceDate)

/-- The function `getPostProcessedException` of the recurrence options. -/
def getPostProcessedException (scheduler : Scheduler Raw Res Pos)
    (appointment : AppointmentAdapter Raw) (date : Int) : Int :=
  let timeZoneName := scheduler.timeZone
  if isEmptyObject timeZoneName || scheduler.isEqualLocalTimeZone timeZoneName date then date
  else
    let appointmentOffset := scheduler.getOffsets appointment.startDate
    let exceptionAppointmentOffset := scheduler.getOffsets date
    let diff := appointmentOffset - exceptionAppointmentOffset
    let diff := _getProcessedNotNativeDateIfCrossDST scheduler date diff
    newDate ((date : ℚ) - diff * (toMs .hour : ℚ))

/-- Source: `_createRecurrenceOptions(appointment, groupIndex)`; the callee
`_createExtremeRecurrenceDates` declares one parameter, so the group index
handed to it is dropped. -/
def _createRecurrenceOptions (scheduler : Scheduler Raw Res Pos)
    (appointment : AppointmentAdapter Raw) (_groupIndex : Option Nat) : RecurrenceOptions :=
  let extreme := _createExtremeRecurrenceDates scheduler appointment.source
  { rule := appointment.recurrenceRule
    exception := appointment.recurrenceException
    min := extreme.1
    max := extreme.2
    firstDayOfWeek := scheduler.getFirstDayOfWeek
    start := appointment.startDate
    «end» := appointment.endDate
    getPostProcessedException := getPostProcessedException scheduler appointment }

/-- Source: `_createRecurrenceAppointments(appointment, resources)` -/
def _createRecurrenceAppointments (scheduler : Scheduler Raw Res Pos)
    (appointment : AppointmentAdapter Raw) (_resources : Res) : List Occurrence :=
  let duration := appointment.duration
  let option := _createRecurrenceOptions scheduler appointment none
  let generatedStartDates := scheduler.generateDates option
  generatedStartDates.map fun date =>
    let utcDate := scheduler.createUTCDateWithLocalOffset date
    let utcDate := utcDate + duration
    let endDate := scheduler.createDateFromUTCWithLocalOffset utcDate
    { startDate := date, endDate := endDate }

/-- The post-pass of `_createAppointments` on one item (T817857). -/
def correctZeroLength (item : Occurrence) : Occurrence :=
  let endTime := item.endDate
  if item.startDate = endTime then { item with endDate := endTime + toMs .minute } else item

/-- The list `_createAppointments` holds when it reaches its post-pass: the
generated occurrences, or the appointment's own dates pushed onto the empty
list of an appointment that is not recurrent. -/
def appointmentsBeforePostPass (scheduler : Scheduler Raw Res Pos)
    (appointment : AppointmentAdapter Raw) (resources : Res) : List Occurrence :=
  let appointments := _createRecurrenceAppointments scheduler appointment resources
  if !appointment.isRecurrent && appointments.length == 0 then
    appointments ++ [{ startDate := appointment.startDate, endDate := appointment.endDate }]
  else appointments

/-- Source: `_createAppointments(appointment, resources)` -/
def _createAppointments (scheduler : Scheduler Raw Res Pos)
    (appointment : AppointmentAdapter Raw) (resources : Res) : List Occurrence :=
  (appointmentsBeforePostPass scheduler appointment resources).map correctZeroLength

/-- The body of the `map` in `_getProcessedNotNativeTimezoneDates`. -/
def processNotNativeTimezoneItem (scheduler : Scheduler Raw Res Pos)
    (appointment : AppointmentAdapter Raw) (item : Occurrence) : Occurrence :=
  let diffStartDateOffset :=
    scheduler.getOffsets appointment.startDate - scheduler.getOffsets item.startDate
  let diffEndDateOffset :=
    scheduler.getOffsets appointment.endDate - scheduler.getOffsets item.endDate
  let diffStartDateOffset :=
    _getProcessedNotNativeDateIfCrossDST scheduler item.startDate diffStartDateOffset
  let diffEndDateOffset :=
    _getProcessedNotNativeDateIfCrossDST scheduler item.endDate diffEndDateOffset
  let newStartDate := newDate ((item.startDate : ℚ) + diffStartDateOffset * (toMs .hour : ℚ))
  let newEndDate := newDate ((item.endDate : ℚ) + diffEndDateOffset * (toMs .hour : ℚ))
  let testNewStartDate := scheduler.createDate newStartDate .toGrid
  let testNewEndDate := scheduler.createDate newEndDate .toGrid
  let newEndDate :=
    if appointment.duration > testNewEndDate - testNewStartDate then
      newStartDate + appointment.duration
    else newEndDate
  { item with startDate := newStartDate, endDate := newEndDate }

/-- Source: `_getProcessedNotNativeTimezoneDates(appointmentList, appointment)`; on the
empty list `appointmentList[appointmentList.length - 1]` is `undefined` and
reading its `endDate` raises a `TypeError`. -/
def _getProcessedNotNativeTimezoneDates (scheduler : Scheduler Raw Res Pos)
    (appointmentList : List Occurrence) (appointment : AppointmentAdapter Raw) :
    Except JsError (List Occurrence) :=
  match appointmentList.getLast? with
  | none => .error .typeError
  | some last =>
    let startDateRange := appointment.startDate
    let endDateRange := last.endDate
    let startDateRangeOffset := scheduler.getOffsets startDateRange
    let endDateRangeOffset := scheduler.getOffsets endDateRange
    let isChangeOffsetInRange := startDateRangeOffset ≠ endDateRangeOffset
    if isChangeOffsetInRange then
      .ok (appointmentList.map (processNotNativeTimezoneItem scheduler appointment))
    else .ok appointmentList

/-- Source: `_getProcessedLongAppointmentsIfRequired(gridAppointmentList, appointment)` -/
def _getProcessedLongAppointmentsIfRequired (scheduler : Scheduler Raw Res Pos)
    (gridAppointmentList : List GridAppointment) (appointment : AppointmentAdapter Raw) :
    List GridAppointment :=
  let rawAppointment := appointment.source
  let allDay := scheduler.appointmentTakesAllDay rawAppointment
  let dateRange := scheduler.getDateRange
  if scheduler.needSeparateAppointment allDay then
    gridAppointmentList.flatMap fun gridAppointment =>
      let maxDate := dateRange.2
      let endDateOfPart :=
        scheduler.normalizeEndDateByViewEnd rawAppointment gridAppointment.endDate
      let longStartDateParts :=
        scheduler.getDatesOfInterval gridAppointment.startDate endDateOfPart
          (scheduler.getIntervalDuration allDay)
      (longStartDateParts.filter fun startDatePart => startDatePart < maxDate).map fun date =>
        { startDate := date
          endDate := scheduler.setMilliseconds date appointment.duration
          source := gridAppointment.source }
  else gridAppointmentList

/-- Source: `_createGridAppointmentList(appointmentList, appointment)` -/
def _createGridAppointmentList (scheduler : Scheduler Raw Res Pos)
    (appointmentList : List Occurrence) (appointment : AppointmentAdapter Raw) :
    List GridAppointment :=
  appointmentList.map fun source =>
    let offsetDifference :=
      scheduler.getTimezoneOffset appointment.startDate
        - scheduler.getTimezoneOffset source.startDate
    let source :=
      if offsetDifference ≠ 0 && _canProcessNotNativeTimezoneDates scheduler appointment then
        { source with
          startDate := source.startDate + offsetDifference * toMs .minute
          endDate := source.endDate + offsetDifference * toMs .minute }
      else source
    let startDate := scheduler.createDate source.startDate .toGrid
    let endDate := scheduler.createDate source.endDate .toGrid
    { startDate := startDate, endDate := endDate, source := source }

/-- The argument record of `_getAppointmentResultDate`. -/
structure ResultDateOptions (Raw : Type) where
  appointment : GridAppointment
  rawAppointment : Raw
  startDate : Int
  startDayHour : ℚ
  firstViewDate : Int

/-- Source: `_getAppointmentResultDate(options)` -/
def _getAppointmentResultDate (scheduler : Scheduler Raw Res Pos)
    (options : ResultDateOptions Raw) : Int :=
  let appointment := options.appointment
  let firstViewDate := options.firstViewDate
  let startDate := options.startDate
  let resultDate :=
    if scheduler.appointmentTakesAllDay options.rawAppointment then
      normalizeDate startDate firstViewDate
    else
      let startDate := if startDate < firstViewDate then firstViewDate else startDate
      normalizeDate appointment.startDate startDate
  scheduler.roundDateByStartDayHour resultDate options.startDayHour

/-- Source: `_getAppointmentFirstViewDate()` -/
def _getAppointmentFirstViewDate (scheduler : Scheduler Raw Res Pos) : Int :=
  scheduler.getStartViewDate

/-- Source: `_getViewStartDayHour()` -/
def _getViewStartDayHour (scheduler : Scheduler Raw Res Pos) : ℚ :=
  scheduler.startDayHour

/-- Source: `_cropAppointmentsByStartDayHour(appointments, rawAppointment, isAllDay)` -/
def _cropAppointmentsByStartDayHour (scheduler : Scheduler Raw Res Pos)
    (appointments : List GridAppointment) (rawAppointment : Raw) (_isAllDay : Bool) :
    List GridAppointment :=
  appointments.map fun appointment =>
    let startDate := appointment.startDate
    let firstViewDate := _getAppointmentFirstViewDate scheduler
    let startDayHour := _getViewStartDayHour scheduler
    { appointment with
      startDate := _getAppointmentResultDate scheduler
        { appointment := appointment
          rawAppointment := rawAppointment
          startDate := startDate
          startDayHour := startDayHour
          firstViewDate := firstViewDate } }

/-- Source: `getCoordinates(options)`: the work space is asked without a group index. -/
def getCoordinates (scheduler : Scheduler Raw Res Pos) (appointment : GridAppointment)
    (resources : Res) (isAllDay : Bool) (_recurrent : Bool) : List Pos :=
  scheduler.getCoordinatesByDateInGroup appointment.startDate resources isAllDay none

/-- Source: `createAppointmentInfos(gridAppointments, resources, isAllDay, recurrent)` -/
def createAppointmentInfos (scheduler : Scheduler Raw Res Pos)
    (gridAppointments : List GridAppointment) (resources : Res) (isAllDay recurrent : Bool) :
    List (Coordinate Pos) :=
  gridAppointments.flatMap fun appointment =>
    let coordinates := getCoordinates scheduler appointment resources isAllDay recurrent
    coordinates.map fun coordinate =>
      { position := coordinate
        info := { appointment := appointment, sourceAppointment := appointment.source } }

/-- Source: `create(rawAppointment)` -/
def create (scheduler : Scheduler Raw Res Pos) (rawAppointment : Raw) :
    Except JsError (List (Coordinate Pos)) := do
  let appointment := scheduler.createAppointmentAdapter rawAppointment
  let itemResources := scheduler.getResourcesFromItem rawAppointment
  let isAllDay := _isAllDayAppointment scheduler rawAppointment
  let appointmentList := _createAppointments scheduler appointment itemResources
  let appointmentList ←
    if _canProcessNotNativeTimezoneDates scheduler appointment then
      _getProcessedNotNativeTimezoneDates scheduler appointmentList appointment
    else pure appointmentList
  let gridAppointmentList := _createGridAppointmentList scheduler appointmentList appointment
  let gridAppointmentList :=
    _cropAppointmentsByStartDayHour scheduler gridAppointmentList rawAppointment isAllDay
  let gridAppointmentList :=
    _getProcessedLongAppointmentsIfRequired scheduler gridAppointmentList appointment
  pure (createAppointmentInfos scheduler gridAppointmentList itemResources isAllDay
    appointment.isRecurrent)

end BaseStrategy

/-! ## The Virtual strategy -/

namespace VirtualStrategy

/-- Source: `_getGroupIndices(resources)` -/
def _getGroupIndices (scheduler : Scheduler Raw Res Pos) (resources : Res) : List Nat :=
  let groupIndices := scheduler.getGroupIndexes resources
  let viewDataGroupIndices := scheduler.getGroupIndices
  let groupIndices := if groupIndices.length = 0 then [0] else groupIndices
  groupIndices.filter fun groupIndex => viewDataGroupIndices.contains groupIndex

/-- Source: `_createRecurrenceAppointments(appointment, resources)` -/
def _createRecurrenceAppointments (scheduler : Scheduler Raw Res Pos)
    (appointment : AppointmentAdapter Raw) (resources : Res) : List Occurrence :=
  let duration := appointment.duration
  let groupIndices :=
    if scheduler.getGroupCount ≠ 0 then _getGroupIndices scheduler resources else [0]
  groupIndices.flatMap fun groupIndex =>
    let option := BaseStrategy._createRecurrenceOptions scheduler appointment (some groupIndex)
    let generatedStartDates := scheduler.generateDates option
    generatedStartDates.map fun date =>
      let startDate := date
      let utcDate := scheduler.createUTCDateWithLocalOffset date
      let utcDate := utcDate + duration
      let endDate := scheduler.createDateFromUTCWithLocalOffset utcDate
      { startDate := startDate, endDate := endDate, groupIndex := some groupIndex }

/-- Source: `_updateGroupIndices(appointments, itemResources)` -/
def _updateGroupIndices (scheduler : Scheduler Raw Res Pos) (appointments : List Occurrence)
    (itemResources : Res) : List Occurrence :=
  let groupIndices := _getGroupIndices scheduler itemResources
  groupIndices.flatMap fun groupIndex =>
    match scheduler.getGroupStartDate groupIndex with
    | some _ => appointments.map fun appointment =>
        { appointment with groupIndex := some groupIndex }
    | none => []

/-- The call `super._createAppointments(appointment, resources)` made by the
Virtual strategy: the body of the Base method, in which
`this._createRecurrenceAppointments` is the Virtual one. -/
def superCreateAppointments (scheduler : Scheduler Raw Res Pos)
    (appointment : AppointmentAdapter Raw) (resources : Res) : List Occurrence :=
  let appointments := _createRecurrenceAppointments scheduler appointment resources
  let appointments :=
    if !appointment.isRecurrent && appointments.length == 0 then
      appointments ++ [{ startDate := appointment.startDate, endDate := appointment.endDate }]
    else appointments
  appointments.map BaseStrategy.correctZeroLength

/-- Source: `_createAppointments(appointment, resources)`: the inherited method
followed by the replication over the groups of an appointment that is not
recurrent. -/
def _createAppointments (scheduler : Scheduler Raw Res Pos)
    (appointment : AppointmentAdapter Raw) (resources : Res) : List Occurrence :=
  let appointments := superCreateAppointments scheduler appointment resources
  if !appointment.isRecurrent then _updateGroupIndices scheduler appointments resources
  else appointments

/-- Source: `getCoordinates(options)` -/
def getCoordinates (scheduler : Scheduler Raw Res Pos) (appointment : GridAppointment)
    (resources : Res) (isAllDay : Bool) (recurrent : Bool) : List Pos :=
  let groupIndex := if !recurrent then appointment.source.groupIndex else none
  scheduler.getCoordinatesByDateInGroup appointment.startDate resources isAllDay groupIndex

/-- Source: `_createRecurrentAppointmentInfos(gridAppointments, resources, allDay)` -/
def _createRecurrentAppointmentInfos (scheduler : Scheduler Raw Res Pos)
    (gridAppointments : List GridAppointment) (_resources : Res) (allDay : Bool) :
    List (Coordinate Pos) :=
  gridAppointments.filterMap fun appointment =>
    let source := appointment.source
    let groupIndex := source.groupIndex
    match scheduler.getCoordinatesByDate appointment.startDate groupIndex allDay with
    | some coordinate =>
      some { position := coordinate
             info := { appointment := appointment, sourceAppointment := source } }
    | none => none

/-- Source: `createAppointmentInfos(gridAppointments, resources, allDay, recurrent)` -/
def createAppointmentInfos (scheduler : Scheduler Raw Res Pos)
    (gridAppointments : List GridAppointment) (resources : Res) (allDay recurrent : Bool) :
    List (Coordinate Pos) :=
  let appointments :=
    if allDay then gridAppointments
    else gridAppointments.filter fun gridAppointment =>
      scheduler.isGroupIntersectDateInterval gridAppointment.source.groupIndex
        gridAppointment.startDate gridAppointment.endDate
  if recurrent then _createRecurrentAppointmentInfos scheduler appointments resources allDay
  else
    appointments.flatMap fun appointment =>
      let coordinates := getCoordinates scheduler appointment resources allDay recurrent
      coordinates.map fun coordinate =>
        { position := coordinate
          info := { appointment := appointment, sourceAppointment := appointment.source } }

/-- Source: `_getViewStartDayHour(firstViewDate)` -/
def _getViewStartDayHour (scheduler : Scheduler Raw Res Pos) (firstViewDate : Int) : ℚ :=
  (scheduler.getHours firstViewDate : ℚ)

/-- Source: `_getAppointmentFirstViewDate(appointment, rawAppointment)`; `none` is the
`undefined` of a cell that does not resolve. -/
def _getAppointmentFirstViewDate (scheduler : Scheduler Raw Res Pos)
    (appointment : GridAppointment) (rawAppointment : Raw) : Option Int :=
  let groupIndex := appointment.source.groupIndex
  let isAllDay := BaseStrategy._isAllDayAppointment scheduler rawAppointment
  scheduler.findGroupCellStartDate groupIndex appointment.startDate appointment.endDate isAllDay

/-- Source: `_cropAppointmentsByStartDayHour(appointments, rawAppointment, isAllDay)`:
a `filter` whose callback also overwrites `startDate` of the item it keeps. -/
def _cropAppointmentsByStartDayHour (scheduler : Scheduler Raw Res Pos)
    (appointments : List GridAppointment) (rawAppointment : Raw) (isAllDay : Bool) :
    List GridAppointment :=
  appointments.filterMap fun appointment =>
    match _getAppointmentFirstViewDate scheduler appointment rawAppointment with
    | none => none
    | some firstViewDate =>
      let startDayHour := _getViewStartDayHour scheduler firstViewDate
      let startDate := appointment.startDate
      let appointment :=
        { appointment with
          startDate := BaseStrategy._getAppointmentResultDate scheduler
            { appointment := appointment
              rawAppointment := rawAppointment
              startDate := startDate
              startDayHour := startDayHour
              firstViewDate := firstViewDate } }
      let keep := if !isAllDay then decide (appointment.endDate > appointment.startDate) else true
      if keep then some appointment else none

/-- The cropped `startDate` of a grid occurrence: the date
`_getAppointmentResultDate` computes for it from the first view date of its
group, when `findGroupCellStartDate` resolves one. -/
def croppedStartDate (scheduler : Scheduler Raw Res Pos) (rawAppointment : Raw)
    (appointment : GridAppointment) : Option Int :=
  (_getAppointmentFirstViewDate scheduler appointment rawAppointment).map fun firstViewDate =>
    BaseStrategy._getAppointmentResultDate scheduler
      { appointment := appointment
        rawAppointment := rawAppointment
        startDate := appointment.startDate
        startDayHour := _getViewStartDayHour scheduler firstViewDate
        firstViewDate := firstViewDate }

/-- The filter the specification describes for the Virtual cropper: a first view
date resolves, and the occurrence is all-day or ends strictly later than its
cropped `startDate`. -/
def isKeptByCrop (scheduler : Scheduler Raw Res Pos) (rawAppointment : Raw) (isAllDay : Bool)
    (appointment : GridAppointment) : Bool :=
  match croppedStartDate scheduler rawAppointment appointment with
  | none => false
  | some startDate => isAllDay || decide (appointment.endDate > startDate)

/-- A grid occurrence with its `startDate` replaced by the cropped one. -/
def withCroppedStartDate (scheduler : Scheduler Raw Res Pos) (rawAppointment : Raw)
    (appointment : GridAppointment) : GridAppointment :=
  { appointment with
    startDate := (croppedStartDate scheduler rawAppointment appointment).getD
      appointment.startDate }

/-- Source: `create(rawAppointment)`, inherited from the Base strategy, with the
methods the Virtual strategy overrides. -/
def create (scheduler : Scheduler Raw Res Pos) (rawAppointment : Raw) :
    Except JsError (List (Coordinate Pos)) := do
  let appointment := scheduler.createAppointmentAdapter rawAppointment
  let itemResources := scheduler.getResourcesFromItem rawAppointment
  let isAllDay := BaseStrategy._isAllDayAppointment scheduler rawAppointment
  let appointmentList := _createAppointments scheduler appointment itemResources
  let appointmentList ←
    if BaseStrategy._canProcessNotNativeTimezoneDates scheduler appointment then
      BaseStrategy._getProcessedNotNativeTimezoneDates scheduler appointmentList appointment
    else pure appointmentList
  let gridAppointmentList :=
    BaseStrategy._createGridAppointmentList scheduler appointmentList appointment
  let gridAppointmentList :=
    _cropAppointmentsByStartDayHour scheduler gridAppointmentList rawAppointment isAllDay
  let gridAppointmentList :=
    BaseStrategy._getProcessedLongAppointmentsIfRequired scheduler gridAppointmentList appointment
  pure (createAppointmentInfos scheduler gridAppointmentList itemResources isAllDay
    appointment.isRecurrent)

end VirtualStrategy

/-- Source: `AppointmentSettingsGenerator.create(rawAppointment)`: the strategy is
chosen by `scheduler.isVirtualScrolling()`. -/
def create (scheduler : Scheduler Raw Res Pos) (rawAppointment : Raw) :
    Except JsError (List (Coordinate Pos)) :=
  if scheduler.isVirtualScrolling then VirtualStrategy.create scheduler rawAppointment
  else BaseStrategy.create scheduler rawAppointment

/-! ## Stages of `create`, named for comparing the strategies -/

/-- An occurrence tagged with a group index. -/
def tagGroup (groupIndex : Nat) (occurrence : Occurrence) : Occurrence :=
  { occurrence with groupIndex := some groupIndex }

/-- A grid occurrence whose `source` is tagged with a group index. -/
def tagGridGroup (groupIndex : Nat) (gridAppointment : GridAppointment) : GridAppointment :=
  { gridAppointment with source := tagGroup groupIndex gridAppointment.source }

/-- The grid occurrences the Base `create` hands to its cropper when the
occurrence list is not reprocessed for a timezone that is not the local one
(as for every appointment that is not recurrent). -/
def BaseStrategy.projectedGridAppointments (scheduler : Scheduler Raw Res Pos)
    (rawAppointment : Raw) : List GridAppointment :=
  BaseStrategy._createGridAppointmentList scheduler
    (BaseStrategy._createAppointments scheduler
      (scheduler.createAppointmentAdapter rawAppointment)
      (scheduler.getResourcesFromItem rawAppointment))
    (scheduler.createAppointmentAdapter rawAppointment)

/-- The grid occurrences the Base `create` hands to `createAppointmentInfos`,
after cropping and splitting, when the occurrence list is not reprocessed. -/
def BaseStrategy.resolvedGridAppointments (scheduler : Scheduler Raw Res Pos)
    (rawAppointment : Raw) : List GridAppointment :=
  BaseStrategy._getProcessedLongAppointmentsIfRequired scheduler
    (BaseStrategy._cropAppointmentsByStartDayHour scheduler
      (BaseStrategy.projectedGridAppointments scheduler rawAppointment) rawAppointment
      (BaseStrategy._isAllDayAppointment scheduler rawAppointment))
    (scheduler.createAppointmentAdapter rawAppointment)

/-- The reading of "lying fully inside the viewport" for a grid occurrence of
group `groupIndex`: a cell of the group resolves for it and starts no later
than the occurrence, the occurrence starts no earlier than the view, neither
the start-day hour of the view nor the hour of the resolved cell moves its
start, and it is all-day or ends after it starts. -/
def liesInsideViewport (scheduler : Scheduler Raw Res Pos) (rawAppointment : Raw)
    (groupIndex : Nat) (gridAppointment : GridAppointment) : Prop :=
  ∃ firstViewDate : Int,
    scheduler.findGroupCellStartDate (some groupIndex) gridAppointment.startDate
        gridAppointment.endDate (BaseStrategy._isAllDayAppointment scheduler rawAppointment)
      = some firstViewDate
    ∧ firstViewDate ≤ gridAppointment.startDate
    ∧ scheduler.getStartViewDate ≤ gridAppointment.startDate
    ∧ scheduler.roundDateByStartDayHour gridAppointment.startDate
        (scheduler.getHours firstViewDate : ℚ) = gridAppointment.startDate
    ∧ scheduler.roundDateByStartDayHour gridAppointment.startDate scheduler.startDayHour
        = gridAppointment.startDate
    ∧ (BaseStrategy._isAllDayAppointment scheduler rawAppointment = true
        ∨ gridAppointment.startDate < gridAppointment.endDate)

/-! ## Sample collaborators

A concrete snapshot on which the definitions above can be evaluated: the local
zone and the grid zone are both UTC, so that calendar arithmetic on a time value
is arithmetic modulo the length of a day.  Individual fields are overridden
where a property is evaluated. -/

/-- A raw appointment reduced to what the sample adapter reads. -/
structure RawAppointment where
  startDate : Int
  endDate : Int
  recurrenceRule : String := ""
  allDay : Bool := false
deriving DecidableEq, Repr

/-- Modelled from the spec: the appointment adapter (not among the sources), a
read view exposing `startDate`, `endDate`, `duration` in ms and `isRecurrent`;
the appointment is recurrent when it has a recurrence rule. -/
def sampleAdapter (raw : RawAppointment) : AppointmentAdapter RawAppointment :=
  { startDate := raw.startDate
    endDate := raw.endDate
    duration := raw.endDate - raw.startDate
    isRecurrent := decide (raw.recurrenceRule ≠ "")
    recurrenceRule := raw.recurrenceRule
    recurrenceException := ""
    source := raw }

/-- Length of a day in ms. -/
def msPerDay : Int := 86400000

/-- Start of the UTC day, moved to the start-day hour, when the time of day is
before that hour; the date itself otherwise. -/
def sampleRoundDateByStartDayHour (date : Int) (startDayHour : ℚ) : Int :=
  let boundary := newDate (startDayHour * 3600000)
  if date % msPerDay < boundary then date - date % msPerDay + boundary else date

/-- The dates `startDate`, `startDate + step`, ... that are earlier than
`endDate`. -/
def sampleGetDatesOfInterval (startDate endDate step : Int) : List Int :=
  if 0 < step then
    (List.range ((endDate - startDate + step - 1) / step).toNat).map
      fun i => startDate + (i : Int) * step
  else []

/-- The sample snapshot: a week view from time 0, no timezone configured, no
grouping, no splitting; `dates` is what the recurrence processor generates and
a position record is the date it was asked for. -/
def sampleScheduler (dates : List Int) : Scheduler RawAppointment Unit Int :=
  { createAppointmentAdapter := sampleAdapter
    getResourcesFromItem := fun _ => ()
    appointmentTakesAllDay := fun raw => raw.allDay
    timeZone := ""
    getStartViewDate := 0
    startDayHour := 0
    getFirstDayOfWeek := 0
    isVirtualScrolling := false
    getOffsets := fun _ => 0
    createDate := fun date _ => date
    isEqualLocalTimeZone := fun _ _ => false
    createUTCDateWithLocalOffset := fun date => date
    createDateFromUTCWithLocalOffset := fun date => date
    getTimezoneOffset := fun _ => 0
    getHours := fun date => date % msPerDay / 3600000
    setHoursMinusOne := fun date => date - 3600000
    setMilliseconds := fun date ms => date - date % 1000 + ms
    trimTime := fun date => date - date % msPerDay
    roundDateByStartDayHour := sampleRoundDateByStartDayHour
    getDatesOfInterval := sampleGetDatesOfInterval
    generateDates := fun _ => dates
    supportAllDayRow := true
    getDateRange := (0, 7 * msPerDay)
    getIntervalDuration := fun allDay => if allDay then msPerDay else 1800000
    getCoordinatesByDateInGroup := fun date _ _ _ => [date]
    getCoordinatesByDate := fun date _ _ => some date
    getGroupCount := 0
    getGroupIndexes := fun _ => []
    getGroupIndices := [0]
    getGroupStartDate := fun _ => some 0
    findGroupCellStartDate := fun _ _ _ _ => some 0
    isGroupIntersectDateInterval := fun _ _ _ => true
    needSeparateAppointment := fun _ => false
    normalizeEndDateByViewEnd := fun _ date => date }

/-- A recurring appointment from 1000 to 2000. -/
def dailyAppointment : RawAppointment :=
  { startDate := 1000, endDate := 2000, recurrenceRule := "FREQ=DAILY" }

/-- The sample snapshot with a timezone configured that is not the local one. -/
def notNativeScheduler (dates : List Int) : Scheduler RawAppointment Unit Int :=
  { sampleScheduler dates with timeZone := "Europe/Berlin" }

/-- The sample snapshot with a timezone configured that equals the local one. -/
def localEquivalentScheduler (dates : List Int) : Scheduler RawAppointment Unit Int :=
  { sampleScheduler dates with
    timeZone := "Etc/UTC"
    isEqualLocalTimeZone := fun _ _ => true }

/-- The coordinates `create` returns on `sampleScheduler [1000, 86401000]` for
`dailyAppointment`. -/
def dailyCoordinates : List (Coordinate Int) :=
  [{ position := 1000
     info :=
      { appointment :=
          { startDate := 1000, endDate := 2000
            source := { startDate := 1000, endDate := 2000 } }
        sourceAppointment := { startDate := 1000, endDate := 2000 } } },
   { position := 86401000
     info :=
      { appointment :=
          { startDate := 86401000, endDate := 86402000
            source := { startDate := 86401000, endDate := 86402000 } }
        sourceAppointment := { startDate := 86401000, endDate := 86402000 } } }]

/-- The not-native snapshot in which the local zone changes its offset at time
5000 (from 0 to -60 minutes) while the configured timezone keeps offset 0. -/
def localTransitionScheduler : Scheduler RawAppointment Unit Int :=
  { notNativeScheduler [] with getTimezoneOffset := fun date => if date < 5000 then 0 else -60 }

/-- The not-native snapshot in which the configured timezone has offset 1 before
time 0 and offset 2 from time 0 on, so offset 2 all over the visible range. -/
def offsetChangeScheduler : Scheduler RawAppointment Unit Int :=
  { notNativeScheduler [] with getOffsets := fun date => if date < 0 then 1 else 2 }

/-- A recurring appointment of one hour that starts thirty days before the
visible range. -/
def earlierAppointment : RawAppointment :=
  { startDate := -2592000000, endDate := -2588400000, recurrenceRule := "FREQ=DAILY" }

/-- The sample snapshot with the day starting at 9 o'clock. -/
def nineScheduler : Scheduler RawAppointment Unit Int :=
  { sampleScheduler [] with startDayHour := 9 }

/-- A grid occurrence of one hour at noon of the eleventh day, three days after
the end of the sample week. -/
def lateGridAppointment : GridAppointment :=
  { startDate := 907200000, endDate := 910800000
    source := { startDate := 907200000, endDate := 910800000 } }

/-- The sample snapshot with two groups, of which only group 0 has a cell (at
time 0) for the dates it is asked about. -/
def groupedScheduler : Scheduler RawAppointment Unit Int :=
  { sampleScheduler [] with
    getGroupCount := 2
    getGroupIndices := [0, 1]
    findGroupCellStartDate := fun groupIndex _ _ _ =>
      if groupIndex = some 0 then some 0 else none }

/-- The sample snapshot in which the rendering strategy asks for long
appointments to be split, at cells of 30 minutes. -/
def splitScheduler : Scheduler RawAppointment Unit Int :=
  { sampleScheduler [] with needSeparateAppointment := fun _ => true }

/-- An appointment of two hours from time 0. -/
def twoHourAppointment : RawAppointment :=
  { startDate := 0, endDate := 7200000 }

/-- An appointment of one hour that starts at 1500 ms, half a second after a
whole second. -/
def halfSecondAppointment : RawAppointment :=
  { startDate := 1500, endDate := 3601500 }

/-- The sample snapshot with three groups, all assigned to every item, of which
groups 0 and 2 have a start date and group 1 has none. -/
def threeGroupScheduler : Scheduler RawAppointment Unit Int :=
  { sampleScheduler [] with
    getGroupCount := 3
    getGroupIndices := [0, 1, 2]
    getGroupIndexes := fun _ => [0, 1, 2]
    getGroupStartDate := fun groupIndex => if groupIndex = 1 then none else some 0 }

/-- The sample snapshot with two groups, both assigned to every item, and a
recurrence processor that generates the instants 5 and 86400005. -/
def twoGroupDailyScheduler : Scheduler RawAppointment Unit Int :=
  { sampleScheduler [5, 86400005] with
    getGroupCount := 2
    getGroupIndices := [0, 1]
    getGroupIndexes := fun _ => [0, 1] }

/-- The sample snapshot in which no date interval intersects the rendered
window of any group. -/
def outsideWindowScheduler : Scheduler RawAppointment Unit Int :=
  { sampleScheduler [] with isGroupIntersectDateInterval := fun _ _ _ => false }

/-- The sample snapshot in which the work space has a coordinate only for dates
before the second day. -/
def firstDayCoordinatesScheduler : Scheduler RawAppointment Unit Int :=
  { sampleScheduler [] with
    getCoordinatesByDate := fun date _ _ => if date < msPerDay then some date else none }

/-- A grid occurrence from 1000 to 2000 in group 0. -/
def groupZeroGridAppointment : GridAppointment :=
  { startDate := 1000, endDate := 2000
    source := { startDate := 1000, endDate := 2000, groupIndex := some 0 } }

/-- A grid occurrence from 86401000 to 86402000, on the second day, in group 0. -/
def secondDayGridAppointment : GridAppointment :=
  { startDate := 86401000, endDate := 86402000
    source := { startDate := 86401000, endDate := 86402000, groupIndex := some 0 } }

/-- An appointment from 1000 to 2000 that is not recurrent. -/
def singleAppointment : RawAppointment :=
  { startDate := 1000, endDate := 2000 }

/-- The argument record the croppers build for a grid occurrence that starts at
1000, with the first view date 0 and the day starting at 9. -/
def sampleResultDateOptions (rawAppointment : RawAppointment) :
    BaseStrategy.ResultDateOptions RawAppointment :=
  { appointment :=
      { startDate := 1000, endDate := 36000000
        source := { startDate := 1000, endDate := 36000000 } }
    rawAppointment := rawAppointment
    startDate := 1000
    startDayHour := 9
    firstViewDate := 0 }

/-! ## Occurrence Builder -/

section OccurrenceBuilder

open BaseStrategy

/-- C1. Zero-length correction in the Base strategy's `_createAppointments`: the
returned list has the length of the list before the post-pass, and at every
index an occurrence whose `startDate` and `endDate` are the same instant comes
out with `endDate = startDate + 60000` while every other occurrence comes out
unchanged. -/
theorem createAppointments_zero_length_correction (scheduler : Scheduler Raw Res Pos)
    (appointment : AppointmentAdapter Raw) (resources : Res) :
    (_createAppointments scheduler appointment resources).length
        = (appointmentsBeforePostPass scheduler appointment resources).length
      ∧ ∀ (i : Nat) (item : Occurrence),
          (appointmentsBeforePostPass scheduler appointment resources)[i]? = some item →
          (item.startDate = item.endDate →
              (_createAppointments scheduler appointment resources)[i]?
                = some { item with endDate := item.startDate + 60000 })
            ∧ (item.startDate ≠ item.endDate →
                (_createAppointments scheduler appointment resources)[i]? = some item) := by
  refine ⟨by simp [_createAppointments], ?_⟩
  intro i item hitem
  constructor
  · intro heq
    simp [_createAppointments, List.getElem?_map, hitem, correctZeroLength, heq, toMs]
  · intro hne
    simp [_createAppointments, List.getElem?_map, hitem, correctZeroLength, hne]

/-- C2, as stated, fails: an appointment that is not recurrent and ends before
it starts (start 1000, end 0) is returned as the occurrence `{1000, 0}`, whose
`endDate` is not later than its `startDate`. -/
theorem createAppointments_nondegeneracy_counterexample :
    _createAppointments (sampleScheduler []) (sampleAdapter { startDate := 1000, endDate := 0 }) ()
        = [{ startDate := 1000, endDate := 0 }]
      ∧ ¬ ∀ item ∈ _createAppointments (sampleScheduler [])
            (sampleAdapter { startDate := 1000, endDate := 0 }) (),
          item.endDate > item.startDate := by
  decide

/-- C2, amended. An occurrence whose end is not earlier than its start when
`_createAppointments` reaches its post-pass comes out, at the same index and
with the same `startDate`, with `endDate` strictly later than `startDate`. -/
theorem createAppointments_end_after_start (scheduler : Scheduler Raw Res Pos)
    (appointment : AppointmentAdapter Raw) (resources : Res) (i : Nat) (item : Occurrence)
    (hitem : (appointmentsBeforePostPass scheduler appointment resources)[i]? = some item)
    (hle : item.startDate ≤ item.endDate) :
    ∃ result, (_createAppointments scheduler appointment resources)[i]? = some result
      ∧ result.startDate = item.startDate ∧ result.endDate > result.startDate := by
  refine ⟨correctZeroLength item, ?_, ?_, ?_⟩
  · simp [_createAppointments, List.getElem?_map, hitem]
  · by_cases heq : item.startDate = item.endDate <;> simp [correctZeroLength, heq]
  · by_cases heq : item.startDate = item.endDate
    · simp [correctZeroLength, heq, toMs]
    · have hlt : item.startDate < item.endDate := lt_of_le_of_ne hle heq
      simp [correctZeroLength, heq, hlt]

/-- Evaluation of `createAppointments_end_after_start` on an appointment, not
recurrent, with start and end both at 1000. -/
theorem createAppointments_end_after_start_witness :
    (appointmentsBeforePostPass (sampleScheduler [])
        (sampleAdapter { startDate := 1000, endDate := 1000 }) ())[0]?
        = some { startDate := 1000, endDate := 1000 }
      ∧ ∃ result, (_createAppointments (sampleScheduler [])
            (sampleAdapter { startDate := 1000, endDate := 1000 }) ())[0]? = some result
          ∧ result.startDate = 1000 ∧ result.endDate > result.startDate :=
  ⟨by decide,
    createAppointments_end_after_start (sampleScheduler [])
      (sampleAdapter { startDate := 1000, endDate := 1000 }) () 0
      { startDate := 1000, endDate := 1000 } (by decide) (by decide)⟩

/-- C3, as stated, fails: for an appointment that is not recurrent, with start
1000 and end 2000, and a recurrence processor that returns the instant 5000,
`_createAppointments` returns the generated occurrence `{5000, 6000}` and not
the appointment's own dates. -/
theorem createAppointments_not_recurrent_counterexample :
    (sampleAdapter { startDate := 1000, endDate := 2000 }).isRecurrent = false
      ∧ (sampleAdapter { startDate := 1000, endDate := 2000 }).startDate
          ≠ (sampleAdapter { startDate := 1000, endDate := 2000 }).endDate
      ∧ _createAppointments (sampleScheduler [5000])
            (sampleAdapter { startDate := 1000, endDate := 2000 }) ()
          = [{ startDate := 5000, endDate := 6000 }]
      ∧ _createAppointments (sampleScheduler [5000])
            (sampleAdapter { startDate := 1000, endDate := 2000 }) ()
          ≠ [{ startDate := 1000, endDate := 2000 }] := by
  decide

/-- C3, amended. For an appointment that is not recurrent, with `startDate`
different from `endDate`, for which the recurrence processor generates no
date, `_createAppointments` returns exactly the one occurrence made of the
appointment's own `startDate` and `endDate`. -/
theorem createAppointments_not_recurrent (scheduler : Scheduler Raw Res Pos)
    (appointment : AppointmentAdapter Raw) (resources : Res)
    (hrecurrent : appointment.isRecurrent = false)
    (hgenerated :
      scheduler.generateDates (_createRecurrenceOptions scheduler appointment none) = [])
    (hdates : appointment.startDate ≠ appointment.endDate) :
    _createAppointments scheduler appointment resources
      = [{ startDate := appointment.startDate, endDate := appointment.endDate }] := by
  simp [_createAppointments, appointmentsBeforePostPass, _createRecurrenceAppointments,
    hgenerated, hrecurrent, correctZeroLength, hdates]

/-- Evaluation of `createAppointments_not_recurrent` on an appointment from
1000 to 2000 for which nothing is generated. -/
theorem createAppointments_not_recurrent_witness :
    (sampleAdapter { startDate := 1000, endDate := 2000 }).isRecurrent = false
      ∧ (sampleScheduler []).generateDates
          (_createRecurrenceOptions (sampleScheduler [])
            (sampleAdapter { startDate := 1000, endDate := 2000 }) none) = []
      ∧ _createAppointments (sampleScheduler [])
            (sampleAdapter { startDate := 1000, endDate := 2000 }) ()
          = [{ startDate := 1000, endDate := 2000 }] :=
  ⟨by decide, by decide,
    createAppointments_not_recurrent (sampleScheduler [])
      (sampleAdapter { startDate := 1000, endDate := 2000 }) () (by decide) (by decide)
      (by decide)⟩

/-- C4. The Base strategy's `_createRecurrenceAppointments` returns as many
occurrences as `generateDates` returns instants, in the same order: the
occurrence at index `i` starts at the instant at index `i` and ends at
`createDateFromUTCWithLocalOffset(createUTCDateWithLocalOffset(instant) + duration)`. -/
theorem createRecurrenceAppointments_spec (scheduler : Scheduler Raw Res Pos)
    (appointment : AppointmentAdapter Raw) (resources : Res) :
    (_createRecurrenceAppointments scheduler appointment resources).length
        = (scheduler.generateDates (_createRecurrenceOptions scheduler appointment none)).length
      ∧ ∀ (i : Nat) (date : Int),
          (scheduler.generateDates (_createRecurrenceOptions scheduler appointment none))[i]?
              = some date →
          (_createRecurrenceAppointments scheduler appointment resources)[i]?
            = some
                { startDate := date
                  endDate := scheduler.createDateFromUTCWithLocalOffset
                    (scheduler.createUTCDateWithLocalOffset date + appointment.duration) } := by
  refine ⟨by simp [_createRecurrenceAppointments], ?_⟩
  intro i date hdate
  simp [_createRecurrenceAppointments, List.getElem?_map, hdate]

/-- Evaluation of the Occurrence Builder: an appointment that is not recurrent,
with start and end both at 1000, becomes the one occurrence from 1000 to 61000;
for the recurring appointment `dailyAppointment`, of duration 1000, the
instants 5 and 86400005 become the occurrences `{5, 1005}` and
`{86400005, 86401005}`. -/
theorem createAppointments_example :
    _createAppointments (sampleScheduler [])
        (sampleAdapter { startDate := 1000, endDate := 1000 }) ()
        = [{ startDate := 1000, endDate := 61000 }]
      ∧ _createRecurrenceAppointments (sampleScheduler [5, 86400005])
          (sampleAdapter dailyAppointment) ()
        = [{ startDate := 5, endDate := 1005 }, { startDate := 86400005, endDate := 86401005 }]
      ∧ _createAppointments (sampleScheduler [5, 86400005]) (sampleAdapter dailyAppointment) ()
        = [{ startDate := 5, endDate := 1005 }, { startDate := 86400005, endDate := 86401005 }] := by
  decide

end OccurrenceBuilder

/-! ## The whole of `create` -/

section Create

open BaseStrategy

/-- C5, evaluated. For the recurring appointment `dailyAppointment` and an
expansion that yields no occurrence, `create` returns the empty list when no
timezone is configured and when the configured timezone equals the local one,
and raises a `TypeError` when the configured timezone is not the local one:
`_getProcessedNotNativeTimezoneDates` reads `endDate` of the last item of the
empty list. -/
theorem create_empty_expansion :
    BaseStrategy.create (sampleScheduler []) dailyAppointment = .ok []
      ∧ BaseStrategy.create (localEquivalentScheduler []) dailyAppointment = .ok []
      ∧ _canProcessNotNativeTimezoneDates (notNativeScheduler [])
          ((notNativeScheduler []).createAppointmentAdapter dailyAppointment) = true
      ∧ _createAppointments (notNativeScheduler [])
          ((notNativeScheduler []).createAppointmentAdapter dailyAppointment) () = []
      ∧ _getProcessedNotNativeTimezoneDates (notNativeScheduler []) []
          ((notNativeScheduler []).createAppointmentAdapter dailyAppointment)
          = .error .typeError
      ∧ BaseStrategy.create (notNativeScheduler []) dailyAppointment = .error .typeError := by
  decide

/-- Cropping keeps the `source` of every grid occurrence. -/
theorem cropAppointmentsByStartDayHour_source (scheduler : Scheduler Raw Res Pos)
    (appointments : List GridAppointment) (rawAppointment : Raw) (isAllDay : Bool)
    (gridAppointment : GridAppointment)
    (hmem : gridAppointment
      ∈ _cropAppointmentsByStartDayHour scheduler appointments rawAppointment isAllDay) :
    ∃ original ∈ appointments, gridAppointment.source = original.source := by
  simp only [_cropAppointmentsByStartDayHour, List.mem_map] at hmem
  obtain ⟨original, horiginal, rfl⟩ := hmem
  exact ⟨original, horiginal, rfl⟩

/-- Every part the splitter emits has the `source` of the grid occurrence it was
cut from. -/
theorem getProcessedLongAppointmentsIfRequired_source (scheduler : Scheduler Raw Res Pos)
    (gridAppointmentList : List GridAppointment) (appointment : AppointmentAdapter Raw)
    (gridAppointment : GridAppointment)
    (hmem : gridAppointment
      ∈ _getProcessedLongAppointmentsIfRequired scheduler gridAppointmentList appointment) :
    ∃ original ∈ gridAppointmentList, gridAppointment.source = original.source := by
  unfold _getProcessedLongAppointmentsIfRequired at hmem
  by_cases hsplit :
      scheduler.needSeparateAppointment (scheduler.appointmentTakesAllDay appointment.source)
        = true
  · simp only [hsplit, if_true, List.mem_flatMap, List.mem_map] at hmem
    obtain ⟨original, horiginal, date, _, rfl⟩ := hmem
    exact ⟨original, horiginal, rfl⟩
  · simp only [hsplit] at hmem
    exact ⟨gridAppointment, hmem, rfl⟩

/-- C6, as stated, fails: for the recurring appointment `dailyAppointment`
(start 1000, end 2000) with occurrences generated at 1000 and 86401000,
`create` returns two coordinates and `info.sourceAppointment` of the second
one carries the dates 86401000 and 86402000 of its occurrence, not the dates
1000 and 2000 of the raw appointment passed to `create`. -/
theorem create_source_appointment_counterexample :
    (BaseStrategy.create (sampleScheduler [1000, 86401000]) dailyAppointment).toOption.map
        (fun coordinates => coordinates.map fun coordinate =>
          (coordinate.info.sourceAppointment.startDate,
            coordinate.info.sourceAppointment.endDate))
        = some [(1000, 2000), (86401000, 86402000)]
      ∧ (dailyAppointment.startDate, dailyAppointment.endDate) = (1000, 2000) := by
  decide!

/-- C6, amended. Every coordinate `create` returns was handed out by the work
space for the `startDate` of the grid occurrence in `info.appointment`, which
is one of the grid occurrences left after cropping and splitting, and
`info.sourceAppointment` is the `source` of that grid occurrence: the
occurrence, in the appointment's own time, from which
`_createGridAppointmentList` projected it. -/
theorem create_info (scheduler : Scheduler Raw Res Pos) (rawAppointment : Raw)
    (coordinates : List (Coordinate Pos)) (coordinate : Coordinate Pos)
    (hcreate : BaseStrategy.create scheduler rawAppointment = .ok coordinates)
    (hmem : coordinate ∈ coordinates) :
    ∃ appointmentList : List Occurrence,
      (if _canProcessNotNativeTimezoneDates scheduler
            (scheduler.createAppointmentAdapter rawAppointment) then
          _getProcessedNotNativeTimezoneDates scheduler
            (_createAppointments scheduler (scheduler.createAppointmentAdapter rawAppointment)
              (scheduler.getResourcesFromItem rawAppointment))
            (scheduler.createAppointmentAdapter rawAppointment)
        else
          .ok (_createAppointments scheduler (scheduler.createAppointmentAdapter rawAppointment)
            (scheduler.getResourcesFromItem rawAppointment))) = .ok appointmentList
      ∧ coordinate.info.appointment
          ∈ _getProcessedLongAppointmentsIfRequired scheduler
              (_cropAppointmentsByStartDayHour scheduler
                (_createGridAppointmentList scheduler appointmentList
                  (scheduler.createAppointmentAdapter rawAppointment))
                rawAppointment (_isAllDayAppointment scheduler rawAppointment))
              (scheduler.createAppointmentAdapter rawAppointment)
      ∧ coordinate.position
          ∈ scheduler.getCoordinatesByDateInGroup coordinate.info.appointment.startDate
              (scheduler.getResourcesFromItem rawAppointment)
              (_isAllDayAppointment scheduler rawAppointment) none
      ∧ coordinate.info.sourceAppointment = coordinate.info.appointment.source
      ∧ ∃ projected ∈ _createGridAppointmentList scheduler appointmentList
            (scheduler.createAppointmentAdapter rawAppointment),
          coordinate.info.sourceAppointment = projected.source := by
  have hinfos : ∀ appointmentList : List Occurrence,
      coordinate ∈ createAppointmentInfos scheduler
          (_getProcessedLongAppointmentsIfRequired scheduler
            (_cropAppointmentsByStartDayHour scheduler
              (_createGridAppointmentList scheduler appointmentList
                (scheduler.createAppointmentAdapter rawAppointment))
              rawAppointment (_isAllDayAppointment scheduler rawAppointment))
            (scheduler.createAppointmentAdapter rawAppointment))
          (scheduler.getResourcesFromItem rawAppointment)
          (_isAllDayAppointment scheduler rawAppointment)
          (scheduler.createAppointmentAdapter rawAppointment).isRecurrent →
      coordinate.info.appointment
          ∈ _getProcessedLongAppointmentsIfRequired scheduler
              (_cropAppointmentsByStartDayHour scheduler
                (_createGridAppointmentList scheduler appointmentList
                  (scheduler.createAppointmentAdapter rawAppointment))
                rawAppointment (_isAllDayAppointment scheduler rawAppointment))
              (scheduler.createAppointmentAdapter rawAppointment)
        ∧ coordinate.position
            ∈ scheduler.getCoordinatesByDateInGroup coordinate.info.appointment.startDate
                (scheduler.getResourcesFromItem rawAppointment)
                (_isAllDayAppointment scheduler rawAppointment) none
        ∧ coordinate.info.sourceAppointment = coordinate.info.appointment.source
        ∧ ∃ projected ∈ _createGridAppointmentList scheduler appointmentList
              (scheduler.createAppointmentAdapter rawAppointment),
            coordinate.info.sourceAppointment = projected.source := by
    intro appointmentList hin
    simp only [createAppointmentInfos, getCoordinates, List.mem_flatMap, List.mem_map] at hin
    obtain ⟨gridAppointment, hgrid, position, hposition, rfl⟩ := hin
    refine ⟨hgrid, hposition, rfl, ?_⟩
    obtain ⟨cropped, hcropped, hsource⟩ :=
      getProcessedLongAppointmentsIfRequired_source scheduler _ _ _ hgrid
    obtain ⟨projected, hprojected, hsource2⟩ :=
      cropAppointmentsByStartDayHour_source scheduler _ _ _ _ hcropped
    exact ⟨projected, hprojected, hsource.trans hsource2⟩
  unfold BaseStrategy.create at hcreate
  simp only [bind, Except.bind, pure, Except.pure] at hcreate
  by_cases hcan : _canProcessNotNativeTimezoneDates scheduler
      (scheduler.createAppointmentAdapter rawAppointment) = true
  · rw [if_pos hcan] at hcreate ⊢
    cases hprocessed : _getProcessedNotNativeTimezoneDates scheduler
        (_createAppointments scheduler (scheduler.createAppointmentAdapter rawAppointment)
          (scheduler.getResourcesFromItem rawAppointment))
        (scheduler.createAppointmentAdapter rawAppointment) with
    | error err => simp [hprocessed] at hcreate
    | ok appointmentList =>
      simp only [hprocessed, Except.ok.injEq] at hcreate
      subst hcreate
      exact ⟨appointmentList, rfl, hinfos appointmentList hmem⟩
  · rw [if_neg hcan] at hcreate ⊢
    simp only [Except.ok.injEq] at hcreate
    subst hcreate
    exact ⟨_, rfl, hinfos _ hmem⟩

/-- Evaluation of `create_info` on the recurring appointment
`dailyAppointment` with occurrences generated at 1000 and 86401000, for the
second coordinate returned. -/
theorem create_info_witness :
    BaseStrategy.create (sampleScheduler [1000, 86401000]) dailyAppointment = .ok dailyCoordinates
      ∧ dailyCoordinates[1]?
          = some
              { position := 86401000
                info :=
                  { appointment :=
                      { startDate := 86401000, endDate := 86402000
                        source := { startDate := 86401000, endDate := 86402000 } }
                    sourceAppointment := { startDate := 86401000, endDate := 86402000 } } }
      ∧ ∃ appointmentList : List Occurrence,
          (if _canProcessNotNativeTimezoneDates (sampleScheduler [1000, 86401000])
                (sampleAdapter dailyAppointment) then
              _getProcessedNotNativeTimezoneDates (sampleScheduler [1000, 86401000])
                (_createAppointments (sampleScheduler [1000, 86401000])
                  (sampleAdapter dailyAppointment) ())
                (sampleAdapter dailyAppointment)
            else
              .ok (_createAppointments (sampleScheduler [1000, 86401000])
                (sampleAdapter dailyAppointment) ()))
              = .ok appointmentList
          ∧ ({ startDate := 86401000, endDate := 86402000
               source := { startDate := 86401000, endDate := 86402000 } } : GridAppointment)
              ∈ _getProcessedLongAppointmentsIfRequired (sampleScheduler [1000, 86401000])
                  (_cropAppointmentsByStartDayHour (sampleScheduler [1000, 86401000])
                    (_createGridAppointmentList (sampleScheduler [1000, 86401000]) appointmentList
                      (sampleAdapter dailyAppointment))
                    dailyAppointment
                    (_isAllDayAppointment (sampleScheduler [1000, 86401000]) dailyAppointment))
                  (sampleAdapter dailyAppointment)
          ∧ (86401000 : Int)
              ∈ (sampleScheduler [1000, 86401000]).getCoordinatesByDateInGroup 86401000 ()
                  (_isAllDayAppointment (sampleScheduler [1000, 86401000]) dailyAppointment) none
          ∧ ({ startDate := 86401000, endDate := 86402000 } : Occurrence)
              = { startDate := 86401000, endDate := 86402000 }
          ∧ ∃ projected ∈ _createGridAppointmentList (sampleScheduler [1000, 86401000])
                appointmentList (sampleAdapter dailyAppointment),
              ({ startDate := 86401000, endDate := 86402000 } : Occurrence) = projected.source :=
  ⟨by decide!, by decide,
    create_info (sampleScheduler [1000, 86401000]) dailyAppointment dailyCoordinates
      { position := 86401000
        info :=
          { appointment :=
              { startDate := 86401000, endDate := 86402000
                source := { startDate := 86401000, endDate := 86402000 } }
            sourceAppointment := { startDate := 86401000, endDate := 86402000 } } }
      (by decide!) (by decide)⟩

end Create

/-! ## DST-crossing correction -/

section CrossDST

open BaseStrategy

/-- C7. `_getProcessedNotNativeDateIfCrossDST(date, offset)` returns 0 when
`offset` is negative and the timezone offset at `date` differs from the offset
at the date one hour earlier (`setHours(getHours() - 1)`), and returns `offset`
unchanged in every other case: when `offset` is zero or positive, and when it is
negative with the same timezone offset at both dates. -/
theorem getProcessedNotNativeDateIfCrossDST_spec (scheduler : Scheduler Raw Res Pos)
    (date : Int) (offset : ℚ) :
    (offset < 0 ∧ scheduler.getOffsets date ≠ scheduler.getOffsets (scheduler.setHoursMinusOne date) →
        _getProcessedNotNativeDateIfCrossDST scheduler date offset = 0)
      ∧ (0 ≤ offset → _getProcessedNotNativeDateIfCrossDST scheduler date offset = offset)
      ∧ (offset < 0
            ∧ scheduler.getOffsets date = scheduler.getOffsets (scheduler.setHoursMinusOne date) →
          _getProcessedNotNativeDateIfCrossDST scheduler date offset = offset) := by
  refine ⟨?_, ?_, ?_⟩
  · rintro ⟨hnegative, hdiffer⟩
    simp [_getProcessedNotNativeDateIfCrossDST, hnegative, hdiffer]
  · intro hnonneg
    simp [_getProcessedNotNativeDateIfCrossDST, not_lt.mpr hnonneg]
  · rintro ⟨hnegative, hsame⟩
    simp [_getProcessedNotNativeDateIfCrossDST, hnegative, hsame]

/-- Evaluation of `_getProcessedNotNativeDateIfCrossDST` where the timezone
offset is 1 before time 0 and 2 from time 0 on: a difference of -1 is zeroed
at time 0, which is within the hour after the change, kept at time 3600000, and
a difference of 1 is kept at both dates. -/
theorem getProcessedNotNativeDateIfCrossDST_example :
    _getProcessedNotNativeDateIfCrossDST offsetChangeScheduler 0 (-1) = 0
      ∧ _getProcessedNotNativeDateIfCrossDST offsetChangeScheduler 3600000 (-1) = -1
      ∧ _getProcessedNotNativeDateIfCrossDST offsetChangeScheduler 0 1 = 1
      ∧ _getProcessedNotNativeDateIfCrossDST offsetChangeScheduler 3600000 1 = 1 := by
  decide!

end CrossDST

/-! ## Grid Projector -/

section GridProjector

open BaseStrategy

/-- C8, as stated, fails, and for two reasons.  First, with the configured
timezone at offset 0 at every instant, `_createGridAppointmentList` still shifts
an occurrence by the difference of the local zone's offsets
(`getTimezoneOffset`) at the appointment's start and at the occurrence's start:
the occurrence `{10000, 11000}` is projected to 3610000, not to
`toGrid(10000) = 10000`.  Second, `_getProcessedNotNativeTimezoneDates` compares
the offset at the last occurrence's end with the offset at the appointment's own
`startDate`, which may lie before the visible range: with offset 2 all over the
visible range and offset 1 at the start of `earlierAppointment`, the occurrence
`{36000000, 39600000}` is moved one hour back and projected to 32400000, not to
`toGrid(36000000) = 36000000`. -/
theorem gridProjection_constant_offset_counterexample :
    (∀ date, localTransitionScheduler.getOffsets date = 0)
      ∧ (_getProcessedNotNativeTimezoneDates localTransitionScheduler
            [{ startDate := 10000, endDate := 11000 }] (sampleAdapter dailyAppointment)).map
          (fun processed =>
            _createGridAppointmentList localTransitionScheduler processed
              (sampleAdapter dailyAppointment))
          = .ok [{ startDate := 3610000, endDate := 3611000
                   source := { startDate := 3610000, endDate := 3611000 } }]
      ∧ localTransitionScheduler.createDate 10000 .toGrid = 10000
      ∧ (∀ date, offsetChangeScheduler.getDateRange.1 ≤ date →
          date ≤ offsetChangeScheduler.getDateRange.2 →
          offsetChangeScheduler.getOffsets date = 2)
      ∧ (_getProcessedNotNativeTimezoneDates offsetChangeScheduler
            [{ startDate := 36000000, endDate := 39600000 }] (sampleAdapter earlierAppointment)).map
          (fun processed =>
            _createGridAppointmentList offsetChangeScheduler processed
              (sampleAdapter earlierAppointment))
          = .ok [{ startDate := 32400000, endDate := 36000000
                   source := { startDate := 32400000, endDate := 36000000 } }]
      ∧ offsetChangeScheduler.createDate 36000000 .toGrid = 36000000 := by
  refine ⟨fun _ => rfl, by decide!, by decide, ?_, by decide!, by decide⟩
  intro date hmin _
  have hnonneg : ¬ date < 0 := not_lt.mpr hmin
  simp [offsetChangeScheduler, notNativeScheduler, sampleScheduler, hnonneg]

/-- C8, amended. When the configured timezone has the same offset at the
appointment's `startDate` and at the `endDate` of the last occurrence (as it
has when its offset is the same at every instant), and the local zone has the
same offset (`getTimezoneOffset`) at the appointment's `startDate` and at the
`startDate` of every occurrence (needed only when
`_canProcessNotNativeTimezoneDates` holds), then `_getProcessedNotNativeTimezoneDates`
followed by `_createGridAppointmentList` gives, for every occurrence of a
non-empty list and in order, the grid occurrence with
`startDate = toGrid(occurrence.startDate)`, `endDate = toGrid(occurrence.endDate)`
and the occurrence itself as `source`. -/
theorem gridProjection_plain_translation (scheduler : Scheduler Raw Res Pos)
    (appointmentList : List Occurrence) (appointment : AppointmentAdapter Raw)
    (last : Occurrence) (hlast : appointmentList.getLast? = some last)
    (hoffset : scheduler.getOffsets appointment.startDate = scheduler.getOffsets last.endDate)
    (hlocal : _canProcessNotNativeTimezoneDates scheduler appointment = true →
      ∀ item ∈ appointmentList,
        scheduler.getTimezoneOffset appointment.startDate
          = scheduler.getTimezoneOffset item.startDate) :
    (_getProcessedNotNativeTimezoneDates scheduler appointmentList appointment).map
        (fun processed => _createGridAppointmentList scheduler processed appointment)
      = .ok (appointmentList.map fun item =>
          { startDate := scheduler.createDate item.startDate .toGrid
            endDate := scheduler.createDate item.endDate .toGrid
            source := item }) := by
  have hprocessed : _getProcessedNotNativeTimezoneDates scheduler appointmentList appointment
      = .ok appointmentList := by
    simp [_getProcessedNotNativeTimezoneDates, hlast, hoffset]
  rw [hprocessed]
  simp only [Except.map, _createGridAppointmentList, Except.ok.injEq]
  apply List.map_congr_left
  intro item hitem
  by_cases hcan : _canProcessNotNativeTimezoneDates scheduler appointment = true
  · simp [hlocal hcan item hitem]
  · simp [hcan]

/-- Evaluation of `gridProjection_plain_translation` on the occurrence
`{10000, 11000}` of `dailyAppointment`, with a timezone configured that is not
the local one and has offset 0 throughout. -/
theorem gridProjection_plain_translation_witness :
    [({ startDate := 10000, endDate := 11000 } : Occurrence)].getLast?
        = some { startDate := 10000, endDate := 11000 }
      ∧ (notNativeScheduler []).getOffsets (sampleAdapter dailyAppointment).startDate
          = (notNativeScheduler []).getOffsets 11000
      ∧ _canProcessNotNativeTimezoneDates (notNativeScheduler [])
          (sampleAdapter dailyAppointment) = true
      ∧ (notNativeScheduler []).getTimezoneOffset (sampleAdapter dailyAppointment).startDate
          = (notNativeScheduler []).getTimezoneOffset 10000
      ∧ (_getProcessedNotNativeTimezoneDates (notNativeScheduler [])
            [{ startDate := 10000, endDate := 11000 }] (sampleAdapter dailyAppointment)).map
          (fun processed =>
            _createGridAppointmentList (notNativeScheduler []) processed
              (sampleAdapter dailyAppointment))
          = .ok ([({ startDate := 10000, endDate := 11000 } : Occurrence)].map fun item =>
              { startDate := (notNativeScheduler []).createDate item.startDate .toGrid
                endDate := (notNativeScheduler []).createDate item.endDate .toGrid
                source := item }) :=
  ⟨by decide, by decide, by decide, by decide,
    gridProjection_plain_translation (notNativeScheduler [])
      [{ startDate := 10000, endDate := 11000 }] (sampleAdapter dailyAppointment)
      { startDate := 10000, endDate := 11000 } (by decide) (by decide)
      (by intro _ item _; rfl)⟩

end GridProjector

/-! ## View Cropper -/

section ViewCropper

/-- With `startDate` a copy of the start of the grid occurrence, the result date
of the cropper is the later of that start and the first view date, rounded to
the start-day hour. -/
theorem getAppointmentResultDate_eq_round_max (scheduler : Scheduler Raw Res Pos)
    (appointment : GridAppointment) (rawAppointment : Raw) (startDayHour : ℚ)
    (firstViewDate : Int) :
    BaseStrategy._getAppointmentResultDate scheduler
        { appointment := appointment
          rawAppointment := rawAppointment
          startDate := appointment.startDate
          startDayHour := startDayHour
          firstViewDate := firstViewDate }
      = scheduler.roundDateByStartDayHour (max appointment.startDate firstViewDate)
          startDayHour := by
  unfold BaseStrategy._getAppointmentResultDate normalizeDate
  by_cases hbefore : appointment.startDate < firstViewDate
  · have hmax : max appointment.startDate firstViewDate = firstViewDate :=
      max_eq_right (le_of_lt hbefore)
    by_cases htakes : scheduler.appointmentTakesAllDay rawAppointment = true <;>
      simp [hbefore, hmax, htakes]
  · have hmax : max appointment.startDate firstViewDate = appointment.startDate :=
      max_eq_left (not_lt.mp hbefore)
    by_cases htakes : scheduler.appointmentTakesAllDay rawAppointment = true <;>
      simp [hbefore, hmax, htakes]

/-- C9. The Virtual strategy's `_cropAppointmentsByStartDayHour` is a filter: it
returns, in input order and each with its `startDate` replaced by the cropped
one, exactly the grid occurrences for which `findGroupCellStartDate` resolves a
first view date and which are all-day or end strictly later than their cropped
`startDate`.  When `findGroupCellStartDate(groupIndex, startDate, endDate,
isAllDay)` resolves to `firstViewDate`, the cropped `startDate` is
`roundDateByStartDayHour(max(startDate, firstViewDate), firstViewDate.getHours())`,
and the occurrence with that `startDate` is in the result exactly when it is
all-day or ends strictly later than it.  An occurrence for which no cell
resolves, and an occurrence that is not all-day and does not end later than its
cropped `startDate`, is not kept; every member of the result comes from an input
occurrence in this way. -/
theorem virtual_cropAppointmentsByStartDayHour_filter (scheduler : Scheduler Raw Res Pos)
    (appointments : List GridAppointment) (rawAppointment : Raw) (isAllDay : Bool) :
    VirtualStrategy._cropAppointmentsByStartDayHour scheduler appointments rawAppointment isAllDay
        = (appointments.filter
            (VirtualStrategy.isKeptByCrop scheduler rawAppointment isAllDay)).map
            (VirtualStrategy.withCroppedStartDate scheduler rawAppointment)
      ∧ (∀ appointment : GridAppointment,
          scheduler.findGroupCellStartDate appointment.source.groupIndex appointment.startDate
              appointment.endDate (BaseStrategy._isAllDayAppointment scheduler rawAppointment)
            = none →
          VirtualStrategy.isKeptByCrop scheduler rawAppointment isAllDay appointment = false)
      ∧ (∀ (appointment : GridAppointment) (startDate : Int),
          VirtualStrategy.croppedStartDate scheduler rawAppointment appointment = some startDate →
          (VirtualStrategy.isKeptByCrop scheduler rawAppointment isAllDay appointment = true
            ↔ isAllDay = true ∨ appointment.endDate > startDate))
      ∧ (∀ (appointment : GridAppointment) (firstViewDate : Int),
          scheduler.findGroupCellStartDate appointment.source.groupIndex appointment.startDate
              appointment.endDate
              (scheduler.appointmentTakesAllDay rawAppointment && scheduler.supportAllDayRow)
            = some firstViewDate →
          VirtualStrategy.croppedStartDate scheduler rawAppointment appointment
              = some (scheduler.roundDateByStartDayHour
                  (max appointment.startDate firstViewDate)
                  (scheduler.getHours firstViewDate : ℚ))
            ∧ VirtualStrategy.withCroppedStartDate scheduler rawAppointment appointment
              = { appointment with
                  startDate := scheduler.roundDateByStartDayHour
                    (max appointment.startDate firstViewDate)
                    (scheduler.getHours firstViewDate : ℚ) }
            ∧ (VirtualStrategy.isKeptByCrop scheduler rawAppointment isAllDay appointment = true
              ↔ isAllDay = true
                ∨ appointment.endDate
                  > scheduler.roundDateByStartDayHour (max appointment.startDate firstViewDate)
                      (scheduler.getHours firstViewDate : ℚ)))
      ∧ (∀ (appointment : GridAppointment) (firstViewDate : Int),
          appointment ∈ appointments →
          scheduler.findGroupCellStartDate appointment.source.groupIndex appointment.startDate
              appointment.endDate
              (scheduler.appointmentTakesAllDay rawAppointment && scheduler.supportAllDayRow)
            = some firstViewDate →
          (isAllDay = true
            ∨ appointment.endDate
              > scheduler.roundDateByStartDayHour (max appointment.startDate firstViewDate)
                  (scheduler.getHours firstViewDate : ℚ)) →
          ({ appointment with
              startDate := scheduler.roundDateByStartDayHour
                (max appointment.startDate firstViewDate)
                (scheduler.getHours firstViewDate : ℚ) } : GridAppointment)
            ∈ VirtualStrategy._cropAppointmentsByStartDayHour scheduler appointments
                rawAppointment isAllDay)
      ∧ (∀ cropped ∈ VirtualStrategy._cropAppointmentsByStartDayHour scheduler appointments
            rawAppointment isAllDay,
          ∃ appointment ∈ appointments, ∃ firstViewDate : Int,
            scheduler.findGroupCellStartDate appointment.source.groupIndex
                appointment.startDate appointment.endDate
                (scheduler.appointmentTakesAllDay rawAppointment && scheduler.supportAllDayRow)
              = some firstViewDate
            ∧ cropped
              = { appointment with
                  startDate := scheduler.roundDateByStartDayHour
                    (max appointment.startDate firstViewDate)
                    (scheduler.getHours firstViewDate : ℚ) }
            ∧ (isAllDay = true ∨ cropped.endDate > cropped.startDate)) := by
  have hequation : VirtualStrategy._cropAppointmentsByStartDayHour scheduler appointments
      rawAppointment isAllDay
      = (appointments.filter
          (VirtualStrategy.isKeptByCrop scheduler rawAppointment isAllDay)).map
          (VirtualStrategy.withCroppedStartDate scheduler rawAppointment) := by
    induction appointments with
    | nil => rfl
    | cons appointment rest ih =>
      unfold VirtualStrategy._cropAppointmentsByStartDayHour at ih ⊢
      rw [List.filterMap_cons, List.filter_cons, ih]
      cases hfirst : VirtualStrategy._getAppointmentFirstViewDate scheduler appointment
          rawAppointment with
      | none =>
        simp [VirtualStrategy.isKeptByCrop, VirtualStrategy.croppedStartDate, hfirst]
      | some firstViewDate =>
        cases isAllDay <;>
          by_cases hend : appointment.endDate
              > BaseStrategy._getAppointmentResultDate scheduler
                  { appointment := appointment
                    rawAppointment := rawAppointment
                    startDate := appointment.startDate
                    startDayHour := VirtualStrategy._getViewStartDayHour scheduler firstViewDate
                    firstViewDate := firstViewDate } <;>
          simp [VirtualStrategy.isKeptByCrop, VirtualStrategy.croppedStartDate,
            VirtualStrategy.withCroppedStartDate, hfirst, hend]
  have hcropped : ∀ (appointment : GridAppointment) (firstViewDate : Int),
      scheduler.findGroupCellStartDate appointment.source.groupIndex appointment.startDate
          appointment.endDate
          (scheduler.appointmentTakesAllDay rawAppointment && scheduler.supportAllDayRow)
        = some firstViewDate →
      VirtualStrategy.croppedStartDate scheduler rawAppointment appointment
        = some (scheduler.roundDateByStartDayHour (max appointment.startDate firstViewDate)
            (scheduler.getHours firstViewDate : ℚ)) := by
    intro appointment firstViewDate hcell
    have hfirst : VirtualStrategy._getAppointmentFirstViewDate scheduler appointment
        rawAppointment = some firstViewDate := hcell
    simp only [VirtualStrategy.croppedStartDate, hfirst, Option.map_some',
      getAppointmentResultDate_eq_round_max, VirtualStrategy._getViewStartDayHour]
  have hresolved : ∀ (appointment : GridAppointment) (firstViewDate : Int),
      scheduler.findGroupCellStartDate appointment.source.groupIndex appointment.startDate
          appointment.endDate
          (scheduler.appointmentTakesAllDay rawAppointment && scheduler.supportAllDayRow)
        = some firstViewDate →
      VirtualStrategy.croppedStartDate scheduler rawAppointment appointment
          = some (scheduler.roundDateByStartDayHour (max appointment.startDate firstViewDate)
              (scheduler.getHours firstViewDate : ℚ))
        ∧ VirtualStrategy.withCroppedStartDate scheduler rawAppointment appointment
          = { appointment with
              startDate := scheduler.roundDateByStartDayHour
                (max appointment.startDate firstViewDate)
                (scheduler.getHours firstViewDate : ℚ) }
        ∧ (VirtualStrategy.isKeptByCrop scheduler rawAppointment isAllDay appointment = true
          ↔ isAllDay = true
            ∨ appointment.endDate
              > scheduler.roundDateByStartDayHour (max appointment.startDate firstViewDate)
                  (scheduler.getHours firstViewDate : ℚ)) := by
    intro appointment firstViewDate hcell
    have hsome := hcropped appointment firstViewDate hcell
    refine ⟨hsome, ?_, ?_⟩
    · simp [VirtualStrategy.withCroppedStartDate, hsome]
    · simp [VirtualStrategy.isKeptByCrop, hsome]
  refine ⟨hequation, ?_, ?_, hresolved, ?_, ?_⟩
  · intro appointment hnone
    have hfirst : VirtualStrategy._getAppointmentFirstViewDate scheduler appointment
        rawAppointment = none := hnone
    simp [VirtualStrategy.isKeptByCrop, VirtualStrategy.croppedStartDate, hfirst]
  · intro appointment startDate hcroppedAt
    simp [VirtualStrategy.isKeptByCrop, hcroppedAt]
  · intro appointment firstViewDate hmem hcell hkeep
    obtain ⟨_, hwith, hkept⟩ := hresolved appointment firstViewDate hcell
    rw [hequation, ← hwith]
    exact List.mem_map.mpr ⟨appointment, List.mem_filter.mpr ⟨hmem, hkept.mpr hkeep⟩, rfl⟩
  · intro cropped hmem
    rw [hequation] at hmem
    obtain ⟨appointment, hfiltered, rfl⟩ := List.mem_map.mp hmem
    obtain ⟨hinput, hkept⟩ := List.mem_filter.mp hfiltered
    cases hcell : scheduler.findGroupCellStartDate appointment.source.groupIndex
        appointment.startDate appointment.endDate
        (scheduler.appointmentTakesAllDay rawAppointment && scheduler.supportAllDayRow) with
    | none =>
      have hfirst : VirtualStrategy._getAppointmentFirstViewDate scheduler appointment
          rawAppointment = none := hcell
      simp [VirtualStrategy.isKeptByCrop, VirtualStrategy.croppedStartDate, hfirst] at hkept
    | some firstViewDate =>
      obtain ⟨_, hwith, hiff⟩ := hresolved appointment firstViewDate hcell
      refine ⟨appointment, hinput, firstViewDate, hcell, hwith, ?_⟩
      rw [hwith]
      exact hiff.mp hkept

/-- Evaluation of the Virtual cropper on two grid occurrences of one group-less
appointment, the first in group 0 and the second in group 1, when only group 0
has a cell: the second is dropped. -/
theorem virtual_cropAppointmentsByStartDayHour_example :
    VirtualStrategy._cropAppointmentsByStartDayHour groupedScheduler
        [{ startDate := 1000, endDate := 2000
           source := { startDate := 1000, endDate := 2000, groupIndex := some 0 } },
         { startDate := 1000, endDate := 2000
           source := { startDate := 1000, endDate := 2000, groupIndex := some 1 } }]
        { startDate := 1000, endDate := 2000 } false
      = [{ startDate := 1000, endDate := 2000
           source := { startDate := 1000, endDate := 2000, groupIndex := some 0 } }] := by
  decide!

/-- The sample rounding to the start-day hour 9 is monotone in the date. -/
theorem sampleRoundDateByStartDayHour_nine_monotone (a b : Int) (hab : a ≤ b) :
    sampleRoundDateByStartDayHour a 9 ≤ sampleRoundDateByStartDayHour b 9 := by
  have hboundary : newDate ((9 : ℚ) * 3600000) = 32400000 := by decide!
  simp only [sampleRoundDateByStartDayHour, hboundary, msPerDay]
  split_ifs <;> omega

/-- C10, as stated, fails: the Base cropper never looks at the view end.  With
the week view from 0 to 604800000 and the day starting at 9, the grid occurrence
at noon of the eleventh day (907200000) is returned with its `startDate`
unchanged, later than the view end (also when the view end is moved to its
start-day-hour boundary, 637200000). -/
theorem cropAppointmentsByStartDayHour_view_end_counterexample :
    BaseStrategy._cropAppointmentsByStartDayHour nineScheduler [lateGridAppointment]
        { startDate := 907200000, endDate := 910800000 } false
        = [lateGridAppointment]
      ∧ lateGridAppointment.startDate = 907200000
      ∧ nineScheduler.getDateRange.2 = 604800000
      ∧ nineScheduler.roundDateByStartDayHour nineScheduler.getDateRange.2
          nineScheduler.startDayHour = 637200000
      ∧ ¬ ∀ gridAppointment ∈ BaseStrategy._cropAppointmentsByStartDayHour nineScheduler
            [lateGridAppointment] { startDate := 907200000, endDate := 910800000 } false,
          gridAppointment.startDate
            ≤ nineScheduler.roundDateByStartDayHour nineScheduler.getDateRange.2
                nineScheduler.startDayHour := by
  decide!

/-- C10, amended. Every grid occurrence the Base cropper returns comes from an
input occurrence whose `startDate` was replaced by
`roundDateByStartDayHour(max(startDate, view start), startDayHour)`; when
`roundDateByStartDayHour` is monotone in the date, the cropped `startDate` is
no earlier than the view start taken at the start-day-hour boundary. -/
theorem cropAppointmentsByStartDayHour_not_before_view_start
    (scheduler : Scheduler Raw Res Pos) (appointments : List GridAppointment)
    (rawAppointment : Raw) (isAllDay : Bool) (gridAppointment : GridAppointment)
    (hmonotone : ∀ a b : Int, a ≤ b →
      scheduler.roundDateByStartDayHour a scheduler.startDayHour
        ≤ scheduler.roundDateByStartDayHour b scheduler.startDayHour)
    (hmem : gridAppointment
      ∈ BaseStrategy._cropAppointmentsByStartDayHour scheduler appointments rawAppointment
          isAllDay) :
    (∃ original ∈ appointments,
        gridAppointment.startDate
            = scheduler.roundDateByStartDayHour
                (max original.startDate scheduler.getStartViewDate) scheduler.startDayHour
          ∧ gridAppointment.endDate = original.endDate
          ∧ gridAppointment.source = original.source)
      ∧ scheduler.roundDateByStartDayHour scheduler.getStartViewDate scheduler.startDayHour
          ≤ gridAppointment.startDate := by
  simp only [BaseStrategy._cropAppointmentsByStartDayHour, List.mem_map] at hmem
  obtain ⟨original, horiginal, rfl⟩ := hmem
  have hresult : BaseStrategy._getAppointmentResultDate scheduler
      { appointment := original
        rawAppointment := rawAppointment
        startDate := original.startDate
        startDayHour := BaseStrategy._getViewStartDayHour scheduler
        firstViewDate := BaseStrategy._getAppointmentFirstViewDate scheduler }
      = scheduler.roundDateByStartDayHour
          (max original.startDate scheduler.getStartViewDate) scheduler.startDayHour := by
    simp only [BaseStrategy._getAppointmentResultDate, BaseStrategy._getViewStartDayHour,
      BaseStrategy._getAppointmentFirstViewDate, normalizeDate]
    congr 1
    by_cases hlt : original.startDate < scheduler.getStartViewDate
    · have hmax : max original.startDate scheduler.getStartViewDate
          = scheduler.getStartViewDate := max_eq_right (le_of_lt hlt)
      simp [hlt, hmax]
    · have hmax : max original.startDate scheduler.getStartViewDate
          = original.startDate := max_eq_left (not_lt.mp hlt)
      simp [hlt, hmax]
  refine ⟨⟨original, horiginal, hresult, rfl, rfl⟩, ?_⟩
  show _ ≤ BaseStrategy._getAppointmentResultDate scheduler _
  rw [hresult]
  exact hmonotone _ _ (le_max_right _ _)

/-- Evaluation of `cropAppointmentsByStartDayHour_not_before_view_start` on a
grid occurrence that starts at 1000, before hour 9 of the first day of the
view: it is moved to 32400000. -/
theorem cropAppointmentsByStartDayHour_not_before_view_start_witness :
    (∀ a b : Int, a ≤ b →
        nineScheduler.roundDateByStartDayHour a nineScheduler.startDayHour
          ≤ nineScheduler.roundDateByStartDayHour b nineScheduler.startDayHour)
      ∧ ({ startDate := 32400000, endDate := 36000000
           source := { startDate := 1000, endDate := 36000000 } } : GridAppointment)
          ∈ BaseStrategy._cropAppointmentsByStartDayHour nineScheduler
              [{ startDate := 1000, endDate := 36000000
                 source := { startDate := 1000, endDate := 36000000 } }]
              { startDate := 1000, endDate := 36000000 } false
      ∧ (∃ original ∈
            [({ startDate := 1000, endDate := 36000000,
                source := { startDate := 1000, endDate := 36000000 } } : GridAppointment)],
          (32400000 : Int)
              = nineScheduler.roundDateByStartDayHour
                  (max original.startDate nineScheduler.getStartViewDate)
                  nineScheduler.startDayHour
            ∧ (36000000 : Int) = original.endDate
            ∧ ({ startDate := 1000, endDate := 36000000 } : Occurrence) = original.source)
      ∧ nineScheduler.roundDateByStartDayHour nineScheduler.getStartViewDate
          nineScheduler.startDayHour ≤ 32400000 :=
  ⟨sampleRoundDateByStartDayHour_nine_monotone, by decide!,
    cropAppointmentsByStartDayHour_not_before_view_start nineScheduler
      [{ startDate := 1000, endDate := 36000000
         source := { startDate := 1000, endDate := 36000000 } }]
      { startDate := 1000, endDate := 36000000 } false
      { startDate := 32400000, endDate := 36000000
        source := { startDate := 1000, endDate := 36000000 } }
      sampleRoundDateByStartDayHour_nine_monotone (by decide!)⟩

end ViewCropper

/-! ## Long-Appointment Splitter -/

section Splitter

open BaseStrategy

/-- Of an arithmetic progression with a positive step, the members earlier than
a bound are an initial segment. -/
theorem filter_progression_lt (start step bound : Int) (hstep : 0 < step) (n : Nat) :
    ∃ m, m ≤ n
      ∧ ((List.range n).map fun i : Nat => start + (i : Int) * step).filter
            (fun date => decide (date < bound))
          = (List.range m).map fun i : Nat => start + (i : Int) * step := by
  induction n with
  | zero => exact ⟨0, le_refl 0, rfl⟩
  | succ n ih =>
    obtain ⟨m, hm, hfilter⟩ := ih
    rw [List.range_succ, List.map_append, List.filter_append, hfilter]
    by_cases hlast : start + (n : Int) * step < bound
    · refine ⟨n + 1, le_refl _, ?_⟩
      have hall : ((List.range n).map fun i : Nat => start + (i : Int) * step).filter
            (fun date => decide (date < bound))
          = (List.range n).map fun i : Nat => start + (i : Int) * step := by
        rw [List.filter_eq_self]
        intro date hdate
        obtain ⟨i, hi, rfl⟩ := List.mem_map.mp hdate
        have hin : (i : Int) ≤ (n : Int) := by
          have := List.mem_range.mp hi
          omega
        have hmul : (i : Int) * step ≤ (n : Int) * step :=
          Int.mul_le_mul_of_nonneg_right hin (le_of_lt hstep)
        simp only [decide_eq_true_eq]
        omega
      rw [← hfilter, hall, List.range_succ, List.map_append]
      simp [hlast]
    · refine ⟨m, Nat.le_succ_of_le hm, ?_⟩
      simp [hlast]

/-- Every part the splitter emits ends where `setMilliseconds(duration)` puts
its own start: with a local zone of constant offset, at the start without its
millisecond component plus the duration. -/
theorem getProcessedLongAppointmentsIfRequired_part_end (scheduler : Scheduler Raw Res Pos)
    (gridAppointmentList : List GridAppointment) (appointment : AppointmentAdapter Raw)
    (part : GridAppointment)
    (hsplit : scheduler.needSeparateAppointment
      (scheduler.appointmentTakesAllDay appointment.source) = true)
    (hmilliseconds : ∀ date ms : Int, scheduler.setMilliseconds date ms = date - date % 1000 + ms)
    (hpart : part ∈ _getProcessedLongAppointmentsIfRequired scheduler gridAppointmentList
      appointment) :
    part.endDate = part.startDate - part.startDate % 1000 + appointment.duration := by
  simp only [_getProcessedLongAppointmentsIfRequired, hsplit, if_true, List.mem_flatMap,
    List.mem_map] at hpart
  obtain ⟨original, _, date, _, rfl⟩ := hpart
  exact hmilliseconds _ _

/-- C11, evaluated. The grid occurrence of `halfSecondAppointment` (start 1500,
duration 3600000) is split at 1500 and 1801500, and both parts end at the start
without its 500 ms plus the duration (3601000 and 5401000), not at
`startDate + duration` (3601500 and 5401500); the parts of `twoHourAppointment`,
whose boundaries are whole seconds, do end at `startDate + duration`. -/
theorem getProcessedLongAppointmentsIfRequired_half_second :
    (sampleAdapter halfSecondAppointment).duration = 3600000
      ∧ _getProcessedLongAppointmentsIfRequired splitScheduler
          [{ startDate := 1500, endDate := 3601500
             source := { startDate := 1500, endDate := 3601500 } }]
          (sampleAdapter halfSecondAppointment)
        = [{ startDate := 1500, endDate := 3601000
             source := { startDate := 1500, endDate := 3601500 } },
           { startDate := 1801500, endDate := 5401000
             source := { startDate := 1500, endDate := 3601500 } }]
      ∧ (¬ ∃ part ∈ _getProcessedLongAppointmentsIfRequired splitScheduler
            [{ startDate := 1500, endDate := 3601500
               source := { startDate := 1500, endDate := 3601500 } }]
            (sampleAdapter halfSecondAppointment),
          part.endDate = part.startDate + (sampleAdapter halfSecondAppointment).duration)
      ∧ ∀ part ∈ _getProcessedLongAppointmentsIfRequired splitScheduler
            [{ startDate := 0, endDate := 7200000
               source := { startDate := 0, endDate := 7200000 } }]
            (sampleAdapter twoHourAppointment),
          part.endDate = part.startDate + (sampleAdapter twoHourAppointment).duration := by
  decide

/-- C12, as stated, fails: every part is as long as the whole appointment.  The
grid occurrence of `twoHourAppointment`, from 0 to 7200000, is split at cells of
30 minutes into four parts that start at 0, 1800000, 3600000 and 5400000 and
each last two hours: the first part already ends at 7200000, after the start of
the second one, and the last part ends at 12600000, not at 7200000 where the
occurrence ends. -/
theorem getProcessedLongAppointmentsIfRequired_coverage_counterexample :
    (_getProcessedLongAppointmentsIfRequired splitScheduler
        [{ startDate := 0, endDate := 7200000
           source := { startDate := 0, endDate := 7200000 } }]
        (sampleAdapter twoHourAppointment)).map
        (fun part => (part.startDate, part.endDate))
      = [(0, 7200000), (1800000, 9000000), (3600000, 10800000), (5400000, 12600000)]
      ∧ (¬ ∀ consecutive ∈ List.zip
            (_getProcessedLongAppointmentsIfRequired splitScheduler
              [{ startDate := 0, endDate := 7200000
                 source := { startDate := 0, endDate := 7200000 } }]
              (sampleAdapter twoHourAppointment))
            (_getProcessedLongAppointmentsIfRequired splitScheduler
              [{ startDate := 0, endDate := 7200000
                 source := { startDate := 0, endDate := 7200000 } }]
              (sampleAdapter twoHourAppointment)).tail,
          consecutive.1.endDate ≤ consecutive.2.startDate)
      ∧ (_getProcessedLongAppointmentsIfRequired splitScheduler
            [{ startDate := 0, endDate := 7200000
               source := { startDate := 0, endDate := 7200000 } }]
            (sampleAdapter twoHourAppointment)).getLast?.map (fun part => part.endDate)
          ≠ some 7200000 := by
  decide

/-- C12, amended. When the interval is positive and `getDatesOfInterval`
enumerates `startDate`, `startDate + interval`, ... (`n` boundaries), the parts
of a grid occurrence are, in order, one per boundary of an initial segment of
that enumeration: the first part starts at the `startDate` of the occurrence,
consecutive parts start one interval apart, every part has the `source` of the
occurrence, and the `endDate` of a part is `setMilliseconds(duration)` applied
to its own start, independent of the next boundary and of the end of the
occurrence. -/
theorem getProcessedLongAppointmentsIfRequired_progression
    (scheduler : Scheduler Raw Res Pos) (gridAppointment : GridAppointment)
    (appointment : AppointmentAdapter Raw) (n : Nat)
    (hsplit : scheduler.needSeparateAppointment
      (scheduler.appointmentTakesAllDay appointment.source) = true)
    (hstep : 0 < scheduler.getIntervalDuration
      (scheduler.appointmentTakesAllDay appointment.source))
    (hboundaries : scheduler.getDatesOfInterval gridAppointment.startDate
        (scheduler.normalizeEndDateByViewEnd appointment.source gridAppointment.endDate)
        (scheduler.getIntervalDuration (scheduler.appointmentTakesAllDay appointment.source))
      = (List.range n).map fun i : Nat =>
          gridAppointment.startDate
            + (i : Int) * scheduler.getIntervalDuration
                (scheduler.appointmentTakesAllDay appointment.source)) :
    ∃ m, m ≤ n
      ∧ _getProcessedLongAppointmentsIfRequired scheduler [gridAppointment] appointment
        = (List.range m).map fun i : Nat =>
            { startDate := gridAppointment.startDate
                + (i : Int) * scheduler.getIntervalDuration
                    (scheduler.appointmentTakesAllDay appointment.source)
              endDate := scheduler.setMilliseconds
                (gridAppointment.startDate
                  + (i : Int) * scheduler.getIntervalDuration
                      (scheduler.appointmentTakesAllDay appointment.source))
                appointment.duration
              source := gridAppointment.source } := by
  obtain ⟨m, hm, hfilter⟩ :=
    filter_progression_lt gridAppointment.startDate
      (scheduler.getIntervalDuration (scheduler.appointmentTakesAllDay appointment.source))
      scheduler.getDateRange.2 hstep n
  refine ⟨m, hm, ?_⟩
  simp only [_getProcessedLongAppointmentsIfRequired, hsplit, if_true, List.flatMap_cons,
    List.flatMap_nil, List.append_nil, hboundaries, hfilter, List.map_map]
  rfl

/-- Evaluation of `getProcessedLongAppointmentsIfRequired_progression` on the
grid occurrence of `twoHourAppointment` with cells of 30 minutes: four
boundaries are enumerated. -/
theorem getProcessedLongAppointmentsIfRequired_progression_witness :
    splitScheduler.needSeparateAppointment
        (splitScheduler.appointmentTakesAllDay (sampleAdapter twoHourAppointment).source) = true
      ∧ 0 < splitScheduler.getIntervalDuration
          (splitScheduler.appointmentTakesAllDay (sampleAdapter twoHourAppointment).source)
      ∧ splitScheduler.getDatesOfInterval 0
          (splitScheduler.normalizeEndDateByViewEnd (sampleAdapter twoHourAppointment).source
            7200000)
          (splitScheduler.getIntervalDuration
            (splitScheduler.appointmentTakesAllDay (sampleAdapter twoHourAppointment).source))
        = [0, 1800000, 3600000, 5400000]
      ∧ ∃ m, m ≤ 4
          ∧ _getProcessedLongAppointmentsIfRequired splitScheduler
              [{ startDate := 0, endDate := 7200000
                 source := { startDate := 0, endDate := 7200000 } }]
              (sampleAdapter twoHourAppointment)
            = (List.range m).map fun i : Nat =>
                { startDate := 0
                    + (i : Int) * splitScheduler.getIntervalDuration
                        (splitScheduler.appointmentTakesAllDay
                          (sampleAdapter twoHourAppointment).source)
                  endDate := splitScheduler.setMilliseconds
                    (0 + (i : Int) * splitScheduler.getIntervalDuration
                        (splitScheduler.appointmentTakesAllDay
                          (sampleAdapter twoHourAppointment).source))
                    (sampleAdapter twoHourAppointment).duration
                  source := { startDate := 0, endDate := 7200000 } } :=
  ⟨by decide, by decide, by decide,
    getProcessedLongAppointmentsIfRequired_progression splitScheduler
      { startDate := 0, endDate := 7200000, source := { startDate := 0, endDate := 7200000 } }
      (sampleAdapter twoHourAppointment) 4 (by decide) (by decide) (by decide)⟩

/-- C13. When the rendering strategy asks for splitting, the start dates of the
parts are, in order and grid occurrence by grid occurrence, exactly the dates
`getDatesOfInterval` enumerates from `startDate` to
`normalizeEndDateByViewEnd(rawAppointment, endDate)` at step
`getIntervalDuration(allDay)` that are strictly earlier than the max date of the
visible range; no part starts at or after that max. -/
theorem getProcessedLongAppointmentsIfRequired_starts (scheduler : Scheduler Raw Res Pos)
    (gridAppointmentList : List GridAppointment) (appointment : AppointmentAdapter Raw)
    (hsplit : scheduler.needSeparateAppointment
      (scheduler.appointmentTakesAllDay appointment.source) = true) :
    (_getProcessedLongAppointmentsIfRequired scheduler gridAppointmentList appointment).map
        (fun part => part.startDate)
      = gridAppointmentList.flatMap (fun gridAppointment =>
          (scheduler.getDatesOfInterval gridAppointment.startDate
            (scheduler.normalizeEndDateByViewEnd appointment.source gridAppointment.endDate)
            (scheduler.getIntervalDuration
              (scheduler.appointmentTakesAllDay appointment.source))).filter
            fun date => decide (date < scheduler.getDateRange.2))
      ∧ ∀ part ∈ _getProcessedLongAppointmentsIfRequired scheduler gridAppointmentList
            appointment,
          part.startDate < scheduler.getDateRange.2 := by
  constructor
  · simp only [_getProcessedLongAppointmentsIfRequired, hsplit, if_true]
    induction gridAppointmentList with
    | nil => rfl
    | cons gridAppointment rest ih =>
      simp only [List.flatMap_cons, List.map_append, List.map_map, ih]
      congr 1
      exact List.map_id _
  · intro part hpart
    simp only [_getProcessedLongAppointmentsIfRequired, hsplit, if_true, List.mem_flatMap,
      List.mem_map, List.mem_filter, decide_eq_true_eq] at hpart
    obtain ⟨original, _, date, ⟨_, hdate⟩, rfl⟩ := hpart
    exact hdate

/-- Evaluation of `getProcessedLongAppointmentsIfRequired_starts` on a grid
occurrence of `twoHourAppointment` that starts one hour before the end of the
sample week (604800000): of the four boundaries only the two before the max
date give a part. -/
theorem getProcessedLongAppointmentsIfRequired_starts_witness :
    splitScheduler.needSeparateAppointment
        (splitScheduler.appointmentTakesAllDay (sampleAdapter twoHourAppointment).source) = true
      ∧ splitScheduler.getDatesOfInterval 601200000 608400000 1800000
          = [601200000, 603000000, 604800000, 606600000]
      ∧ (_getProcessedLongAppointmentsIfRequired splitScheduler
            [{ startDate := 601200000, endDate := 608400000
               source := { startDate := 601200000, endDate := 608400000 } }]
            (sampleAdapter twoHourAppointment)).map (fun part => part.startDate)
          = [601200000, 603000000]
      ∧ ((_getProcessedLongAppointmentsIfRequired splitScheduler
            [{ startDate := 601200000, endDate := 608400000
               source := { startDate := 601200000, endDate := 608400000 } }]
            (sampleAdapter twoHourAppointment)).map (fun part => part.startDate)
          = [({ startDate := 601200000, endDate := 608400000,
                source := { startDate := 601200000, endDate := 608400000 } }
              : GridAppointment)].flatMap (fun gridAppointment =>
              (splitScheduler.getDatesOfInterval gridAppointment.startDate
                (splitScheduler.normalizeEndDateByViewEnd
                  (sampleAdapter twoHourAppointment).source gridAppointment.endDate)
                (splitScheduler.getIntervalDuration
                  (splitScheduler.appointmentTakesAllDay
                    (sampleAdapter twoHourAppointment).source))).filter
                fun date => decide (date < splitScheduler.getDateRange.2))
        ∧ ∀ part ∈ _getProcessedLongAppointmentsIfRequired splitScheduler
              [{ startDate := 601200000, endDate := 608400000
                 source := { startDate := 601200000, endDate := 608400000 } }]
              (sampleAdapter twoHourAppointment),
            part.startDate < splitScheduler.getDateRange.2) :=
  ⟨by decide, by decide, by decide,
    getProcessedLongAppointmentsIfRequired_starts splitScheduler
      [{ startDate := 601200000, endDate := 608400000
         source := { startDate := 601200000, endDate := 608400000 } }]
      (sampleAdapter twoHourAppointment) (by decide)⟩

end Splitter

/-! ## Occurrence Builder of the Virtual strategy -/

section VirtualOccurrenceBuilder

/-- Replicating over the group indices that have a start date is replicating
over the filtered list of group indices. -/
theorem updateGroupIndices_eq_filter (scheduler : Scheduler Raw Res Pos)
    (appointments : List Occurrence) (itemResources : Res) :
    VirtualStrategy._updateGroupIndices scheduler appointments itemResources
      = ((VirtualStrategy._getGroupIndices scheduler itemResources).filter
          fun groupIndex => (scheduler.getGroupStartDate groupIndex).isSome).flatMap
          fun groupIndex => appointments.map fun appointment =>
            { appointment with groupIndex := some groupIndex } := by
  unfold VirtualStrategy._updateGroupIndices
  induction VirtualStrategy._getGroupIndices scheduler itemResources with
  | nil => rfl
  | cons groupIndex rest ih =>
    cases hstart : scheduler.getGroupStartDate groupIndex with
    | none => simpa [List.filter_cons, hstart] using ih
    | some groupStartDate => simpa [List.filter_cons, hstart] using ih

/-- Mapping every member of a list to a one-element list and concatenating
keeps the length. -/
theorem flatMap_singleton_length {α β : Type} (l : List α) (f : α → β → β) (b : β) :
    (l.flatMap fun a => [b].map (f a)).length = l.length := by
  induction l with
  | nil => rfl
  | cons a rest ih =>
    rw [List.flatMap_cons, List.length_append, ih]
    simp [Nat.add_comm]

/-- C14. In the Virtual strategy, `_createAppointments` on an appointment that
is not recurrent returns, for each group index of the item for which
`getGroupStartDate` resolves and in the order of `_getGroupIndices`, one copy of
each occurrence of the inherited method tagged with that group index.  The group
indices are those of the item, `[0]` when it has none, restricted to the group
indices of the view.  When nothing is generated for the appointment there is one
occurrence to copy, so there are as many occurrences as resolving group
indices. -/
theorem virtual_createAppointments_not_recurrent (scheduler : Scheduler Raw Res Pos)
    (appointment : AppointmentAdapter Raw) (resources : Res)
    (hrecurrent : appointment.isRecurrent = false) :
    VirtualStrategy._createAppointments scheduler appointment resources
        = ((VirtualStrategy._getGroupIndices scheduler resources).filter
            fun groupIndex => (scheduler.getGroupStartDate groupIndex).isSome).flatMap
            (fun groupIndex =>
              (VirtualStrategy.superCreateAppointments scheduler appointment resources).map
                fun occurrence => { occurrence with groupIndex := some groupIndex })
      ∧ (∀ groupIndex, groupIndex ∈ VirtualStrategy._getGroupIndices scheduler resources ↔
          groupIndex ∈ (if scheduler.getGroupIndexes resources = [] then [0]
              else scheduler.getGroupIndexes resources)
            ∧ groupIndex ∈ scheduler.getGroupIndices)
      ∧ (scheduler.generateDates
            (BaseStrategy._createRecurrenceOptions scheduler appointment none) = [] →
          (VirtualStrategy._createAppointments scheduler appointment resources).length
            = ((VirtualStrategy._getGroupIndices scheduler resources).filter
                fun groupIndex => (scheduler.getGroupStartDate groupIndex).isSome).length) := by
  have hcreate : VirtualStrategy._createAppointments scheduler appointment resources
      = ((VirtualStrategy._getGroupIndices scheduler resources).filter
          fun groupIndex => (scheduler.getGroupStartDate groupIndex).isSome).flatMap
          (fun groupIndex =>
            (VirtualStrategy.superCreateAppointments scheduler appointment resources).map
              fun occurrence => { occurrence with groupIndex := some groupIndex }) := by
    simp only [VirtualStrategy._createAppointments, hrecurrent, Bool.not_false, if_true]
    exact updateGroupIndices_eq_filter scheduler _ resources
  refine ⟨hcreate, ?_, ?_⟩
  · intro groupIndex
    unfold VirtualStrategy._getGroupIndices
    by_cases hnone : scheduler.getGroupIndexes resources = []
    · simp [hnone]
    · simp [hnone, List.length_eq_zero]
  · intro hgenerated
    have hgeneratedAt : ∀ groupIndex : Nat, scheduler.generateDates
        (BaseStrategy._createRecurrenceOptions scheduler appointment (some groupIndex)) = [] :=
      fun _ => hgenerated
    have hnone : VirtualStrategy._createRecurrenceAppointments scheduler appointment resources
        = [] := by
      unfold VirtualStrategy._createRecurrenceAppointments
      induction (if scheduler.getGroupCount ≠ 0 then
          VirtualStrategy._getGroupIndices scheduler resources else [0]) with
      | nil => rfl
      | cons groupIndex rest ih =>
        rw [List.flatMap_cons, ih]
        simp [hgeneratedAt]
    have hsuper : VirtualStrategy.superCreateAppointments scheduler appointment resources
        = [BaseStrategy.correctZeroLength
            { startDate := appointment.startDate, endDate := appointment.endDate }] := by
      simp [VirtualStrategy.superCreateAppointments, hnone, hrecurrent]
    rw [hcreate, hsuper]
    exact flatMap_singleton_length _
      (fun (groupIndex : Nat) (occurrence : Occurrence) =>
        { occurrence with groupIndex := some groupIndex }) _

/-- Evaluation of `virtual_createAppointments_not_recurrent` on an appointment
assigned to three group indices of which two have a start date: two
occurrences are returned, tagged 0 and 2. -/
theorem virtual_createAppointments_not_recurrent_witness :
    (sampleAdapter { startDate := 1000, endDate := 2000 }).isRecurrent = false
      ∧ VirtualStrategy._createAppointments threeGroupScheduler
          (sampleAdapter { startDate := 1000, endDate := 2000 }) ()
        = [{ startDate := 1000, endDate := 2000, groupIndex := some 0 },
           { startDate := 1000, endDate := 2000, groupIndex := some 2 }]
      ∧ VirtualStrategy._getGroupIndices threeGroupScheduler () = [0, 1, 2]
      ∧ (VirtualStrategy._createAppointments threeGroupScheduler
            (sampleAdapter { startDate := 1000, endDate := 2000 }) ()
          = ((VirtualStrategy._getGroupIndices threeGroupScheduler ()).filter
              fun groupIndex => (threeGroupScheduler.getGroupStartDate groupIndex).isSome).flatMap
              (fun groupIndex =>
                (VirtualStrategy.superCreateAppointments threeGroupScheduler
                  (sampleAdapter { startDate := 1000, endDate := 2000 }) ()).map
                  fun occurrence => { occurrence with groupIndex := some groupIndex })
        ∧ (∀ groupIndex, groupIndex ∈ VirtualStrategy._getGroupIndices threeGroupScheduler () ↔
            groupIndex ∈ (if threeGroupScheduler.getGroupIndexes () = [] then [0]
                else threeGroupScheduler.getGroupIndexes ())
              ∧ groupIndex ∈ threeGroupScheduler.getGroupIndices)
        ∧ (threeGroupScheduler.generateDates
              (BaseStrategy._createRecurrenceOptions threeGroupScheduler
                (sampleAdapter { startDate := 1000, endDate := 2000 }) none) = [] →
            (VirtualStrategy._createAppointments threeGroupScheduler
                (sampleAdapter { startDate := 1000, endDate := 2000 }) ()).length
              = ((VirtualStrategy._getGroupIndices threeGroupScheduler ()).filter
                  fun groupIndex =>
                    (threeGroupScheduler.getGroupStartDate groupIndex).isSome).length)) :=
  ⟨by decide, by decide, by decide,
    virtual_createAppointments_not_recurrent threeGroupScheduler
      (sampleAdapter { startDate := 1000, endDate := 2000 }) () (by decide)⟩

/-- C20. In the Virtual strategy the recurrence options do not depend on the
group index, and `_createRecurrenceAppointments` returns, for the group indices
of the item in order (`[0]` when the work space has no groups), the occurrence
list of the Base strategy with every occurrence tagged with the group index:
the Base list replicated per group. -/
theorem virtual_createRecurrenceAppointments_replicates (scheduler : Scheduler Raw Res Pos)
    (appointment : AppointmentAdapter Raw) (resources : Res) :
    (∀ groupIndex : Nat,
        BaseStrategy._createRecurrenceOptions scheduler appointment (some groupIndex)
          = BaseStrategy._createRecurrenceOptions scheduler appointment none)
      ∧ VirtualStrategy._createRecurrenceAppointments scheduler appointment resources
        = (if scheduler.getGroupCount ≠ 0 then VirtualStrategy._getGroupIndices scheduler resources
            else [0]).flatMap
            (fun groupIndex =>
              (BaseStrategy._createRecurrenceAppointments scheduler appointment resources).map
                fun occurrence => { occurrence with groupIndex := some groupIndex }) := by
  refine ⟨fun _ => rfl, ?_⟩
  unfold VirtualStrategy._createRecurrenceAppointments BaseStrategy._createRecurrenceAppointments
  simp only [List.map_map]
  rfl

/-- Evaluation of the Virtual `_createRecurrenceAppointments` with two groups
and the instants 5 and 86400005 generated for `dailyAppointment`: the two
occurrences of the Base strategy, once tagged 0 and once tagged 1. -/
theorem virtual_createRecurrenceAppointments_example :
    BaseStrategy._createRecurrenceAppointments twoGroupDailyScheduler
        (sampleAdapter dailyAppointment) ()
        = [{ startDate := 5, endDate := 1005 }, { startDate := 86400005, endDate := 86401005 }]
      ∧ VirtualStrategy._createRecurrenceAppointments twoGroupDailyScheduler
          (sampleAdapter dailyAppointment) ()
        = [{ startDate := 5, endDate := 1005, groupIndex := some 0 },
           { startDate := 86400005, endDate := 86401005, groupIndex := some 0 },
           { startDate := 5, endDate := 1005, groupIndex := some 1 },
           { startDate := 86400005, endDate := 86401005, groupIndex := some 1 }] := by
  decide

end VirtualOccurrenceBuilder

/-! ## Coordinate Resolver of the Virtual strategy -/

section VirtualResolver

/-- C15, as stated, fails: for an all-day call the Virtual strategy's
`createAppointmentInfos` does not filter.  With no interval intersecting any
group window, the all-day call still returns a coordinate for the grid
occurrence `groupZeroGridAppointment`, on the path that is not recurrent and on
the recurrent one, while the call that is not all-day returns nothing. -/
theorem virtual_createAppointmentInfos_all_day_counterexample :
    outsideWindowScheduler.isGroupIntersectDateInterval
        groupZeroGridAppointment.source.groupIndex groupZeroGridAppointment.startDate
        groupZeroGridAppointment.endDate = false
      ∧ VirtualStrategy.createAppointmentInfos outsideWindowScheduler
          [groupZeroGridAppointment] () true false
        = [{ position := 1000
             info := { appointment := groupZeroGridAppointment
                       sourceAppointment := groupZeroGridAppointment.source } }]
      ∧ VirtualStrategy.createAppointmentInfos outsideWindowScheduler
          [groupZeroGridAppointment] () true true
        = [{ position := 1000
             info := { appointment := groupZeroGridAppointment
                       sourceAppointment := groupZeroGridAppointment.source } }]
      ∧ (¬ ∀ coordinate ∈ VirtualStrategy.createAppointmentInfos outsideWindowScheduler
            [groupZeroGridAppointment] () true false,
          outsideWindowScheduler.isGroupIntersectDateInterval
            coordinate.info.appointment.source.groupIndex coordinate.info.appointment.startDate
            coordinate.info.appointment.endDate = true)
      ∧ VirtualStrategy.createAppointmentInfos outsideWindowScheduler
          [groupZeroGridAppointment] () false false = [] := by
  decide

/-- C15, amended. For every call of the Virtual strategy's
`createAppointmentInfos` that is not all-day, recurrent or not, the grid
occurrence in `info.appointment` of every coordinate returned is one of the grid
occurrences passed in and satisfies
`isGroupIntersectDateInterval(source.groupIndex, startDate, endDate)`. -/
theorem virtual_createAppointmentInfos_intersects (scheduler : Scheduler Raw Res Pos)
    (gridAppointments : List GridAppointment) (resources : Res) (recurrent : Bool)
    (coordinate : Coordinate Pos)
    (hmem : coordinate
      ∈ VirtualStrategy.createAppointmentInfos scheduler gridAppointments resources false
          recurrent) :
    coordinate.info.appointment ∈ gridAppointments
      ∧ scheduler.isGroupIntersectDateInterval coordinate.info.appointment.source.groupIndex
          coordinate.info.appointment.startDate coordinate.info.appointment.endDate = true := by
  cases recurrent with
  | true =>
    simp only [VirtualStrategy.createAppointmentInfos,
      VirtualStrategy._createRecurrentAppointmentInfos, Bool.false_eq_true, if_false, if_true,
      List.mem_filterMap, List.mem_filter] at hmem
    obtain ⟨gridAppointment, ⟨hgrid, hintersects⟩, hsome⟩ := hmem
    cases hcoordinate : scheduler.getCoordinatesByDate gridAppointment.startDate
        gridAppointment.source.groupIndex false with
    | none => simp [hcoordinate] at hsome
    | some position =>
      simp only [hcoordinate, Option.some.injEq] at hsome
      subst hsome
      exact ⟨hgrid, hintersects⟩
  | false =>
    simp only [VirtualStrategy.createAppointmentInfos, Bool.false_eq_true, if_false,
      List.mem_flatMap, List.mem_map, List.mem_filter] at hmem
    obtain ⟨gridAppointment, ⟨hgrid, hintersects⟩, position, _, rfl⟩ := hmem
    exact ⟨hgrid, hintersects⟩

/-- Evaluation of `virtual_createAppointmentInfos_intersects` on the sample
snapshot, where every interval intersects. -/
theorem virtual_createAppointmentInfos_intersects_witness :
    ({ position := 1000
       info := { appointment := groupZeroGridAppointment
                 sourceAppointment := groupZeroGridAppointment.source } } : Coordinate Int)
        ∈ VirtualStrategy.createAppointmentInfos (sampleScheduler [])
            [groupZeroGridAppointment] () false false
      ∧ groupZeroGridAppointment ∈ [groupZeroGridAppointment]
      ∧ (sampleScheduler []).isGroupIntersectDateInterval
          groupZeroGridAppointment.source.groupIndex groupZeroGridAppointment.startDate
          groupZeroGridAppointment.endDate = true :=
  ⟨by decide,
    virtual_createAppointmentInfos_intersects (sampleScheduler []) [groupZeroGridAppointment] ()
      false
      { position := 1000
        info := { appointment := groupZeroGridAppointment
                  sourceAppointment := groupZeroGridAppointment.source } }
      (by decide)⟩

/-- C16. The Virtual strategy's `_createRecurrentAppointmentInfos` returns, in
the order of the grid occurrences, one coordinate for each grid occurrence for
which `getCoordinatesByDate(startDate, groupIndex, allDay)` returns a coordinate
and none for the others: the grid occurrences in `info.appointment` of the
result are the input filtered by that condition, and every coordinate is the one
the work space returned for its grid occurrence, with `info.sourceAppointment`
the `source` of that grid occurrence. -/
theorem createRecurrentAppointmentInfos_spec (scheduler : Scheduler Raw Res Pos)
    (gridAppointments : List GridAppointment) (resources : Res) (allDay : Bool) :
    (VirtualStrategy._createRecurrentAppointmentInfos scheduler gridAppointments resources
        allDay).map (fun coordinate => coordinate.info.appointment)
        = gridAppointments.filter (fun gridAppointment =>
            (scheduler.getCoordinatesByDate gridAppointment.startDate
              gridAppointment.source.groupIndex allDay).isSome)
      ∧ ∀ coordinate ∈ VirtualStrategy._createRecurrentAppointmentInfos scheduler
            gridAppointments resources allDay,
          scheduler.getCoordinatesByDate coordinate.info.appointment.startDate
              coordinate.info.appointment.source.groupIndex allDay = some coordinate.position
            ∧ coordinate.info.sourceAppointment = coordinate.info.appointment.source := by
  constructor
  · unfold VirtualStrategy._createRecurrentAppointmentInfos
    induction gridAppointments with
    | nil => rfl
    | cons gridAppointment rest ih =>
      rw [List.filterMap_cons, List.filter_cons]
      cases hcoordinate : scheduler.getCoordinatesByDate gridAppointment.startDate
          gridAppointment.source.groupIndex allDay with
      | none => simpa [hcoordinate] using ih
      | some position => simpa [hcoordinate] using ih
  · intro coordinate hmem
    simp only [VirtualStrategy._createRecurrentAppointmentInfos, List.mem_filterMap] at hmem
    obtain ⟨gridAppointment, _, hsome⟩ := hmem
    cases hcoordinate : scheduler.getCoordinatesByDate gridAppointment.startDate
        gridAppointment.source.groupIndex allDay with
    | none => simp [hcoordinate] at hsome
    | some position =>
      simp only [hcoordinate, Option.some.injEq] at hsome
      subst hsome
      exact ⟨hcoordinate, rfl⟩

/-- Evaluation of `_createRecurrentAppointmentInfos` where the work space has a
coordinate for dates of the first day only: of a grid occurrence on the second
day, one on the first day and again one on the second day, only the middle one
gets a coordinate. -/
theorem createRecurrentAppointmentInfos_example :
    VirtualStrategy._createRecurrentAppointmentInfos firstDayCoordinatesScheduler
        [secondDayGridAppointment, groupZeroGridAppointment, secondDayGridAppointment] () false
      = [{ position := 1000
           info := { appointment := groupZeroGridAppointment
                     sourceAppointment := groupZeroGridAppointment.source } }] := by
  decide

end VirtualResolver

/-! ## Exception transform and offset range -/

section NotNativeTimezone

open BaseStrategy

/-- The time value of `new Date(t)` for a whole number `t` is `t`. -/
theorem newDate_intCast (t : Int) : newDate (t : ℚ) = t := by
  unfold newDate
  split <;> simp

/-- C18. The function `getPostProcessedException` of the recurrence options
returns the exception date unchanged when no timezone is configured or the
configured timezone equals the local one at that date; otherwise it returns the
date of `date - c * 3600000`, where `c` is `_getProcessedNotNativeDateIfCrossDST`
applied to the difference of the timezone offsets at the appointment's
`startDate` and at the exception date: `date - k` when `c * 3600000` is the
whole number `k` of milliseconds. -/
theorem getPostProcessedException_spec (scheduler : Scheduler Raw Res Pos)
    (appointment : AppointmentAdapter Raw) (groupIndex : Option Nat) (date : Int) :
    (scheduler.timeZone = "" ∨ scheduler.isEqualLocalTimeZone scheduler.timeZone date = true →
        (_createRecurrenceOptions scheduler appointment groupIndex).getPostProcessedException date
          = date)
      ∧ (scheduler.timeZone ≠ "" ∧ scheduler.isEqualLocalTimeZone scheduler.timeZone date = false →
          (_createRecurrenceOptions scheduler appointment groupIndex).getPostProcessedException
              date
            = newDate ((date : ℚ)
                - _getProcessedNotNativeDateIfCrossDST scheduler date
                    (scheduler.getOffsets appointment.startDate - scheduler.getOffsets date)
                  * 3600000)
          ∧ ∀ k : Int,
              _getProcessedNotNativeDateIfCrossDST scheduler date
                    (scheduler.getOffsets appointment.startDate - scheduler.getOffsets date)
                  * 3600000 = (k : ℚ) →
              (_createRecurrenceOptions scheduler appointment groupIndex).getPostProcessedException
                  date = date - k) := by
  have hempty : isEmptyObject scheduler.timeZone = true ↔ scheduler.timeZone = "" :=
    String.isEmpty_iff scheduler.timeZone
  constructor
  · rintro (hnone | hlocal)
    · simp [_createRecurrenceOptions, getPostProcessedException, hempty.mpr hnone]
    · simp [_createRecurrenceOptions, getPostProcessedException, hlocal]
  · rintro ⟨hset, hlocal⟩
    have hnotEmpty : isEmptyObject scheduler.timeZone = false := by
      cases hcase : isEmptyObject scheduler.timeZone with
      | false => rfl
      | true => exact absurd (hempty.mp hcase) hset
    have hvalue :
        (_createRecurrenceOptions scheduler appointment groupIndex).getPostProcessedException date
          = newDate ((date : ℚ)
              - _getProcessedNotNativeDateIfCrossDST scheduler date
                  (scheduler.getOffsets appointment.startDate - scheduler.getOffsets date)
                * 3600000) := by
      simp [_createRecurrenceOptions, getPostProcessedException, hnotEmpty, hlocal, toMs]
    refine ⟨hvalue, ?_⟩
    intro k hk
    rw [hvalue, hk]
    have hcast : (date : ℚ) - (k : ℚ) = ((date - k : Int) : ℚ) := by push_cast; ring
    rw [hcast, newDate_intCast]

/-- Evaluation of `getPostProcessedException` for `earlierAppointment`, whose
start has timezone offset 1: with no timezone configured the exception date
7200000 is returned as it is; with the timezone of `offsetChangeScheduler`,
offset 2 at 7200000, the difference -1 is kept and the date is moved one hour
forward; at the exception date 0, within the hour after the change of offset,
the difference is zeroed and the date is kept. -/
theorem getPostProcessedException_example :
    (_createRecurrenceOptions (sampleScheduler []) (sampleAdapter earlierAppointment)
        none).getPostProcessedException 7200000 = 7200000
      ∧ (_createRecurrenceOptions offsetChangeScheduler (sampleAdapter earlierAppointment)
          none).getPostProcessedException 7200000 = 10800000
      ∧ (_createRecurrenceOptions offsetChangeScheduler (sampleAdapter earlierAppointment)
          none).getPostProcessedException 0 = 0 := by
  decide!

/-- C19, as stated, fails: the offset compared with the one at the last
occurrence's `endDate` is the offset at the appointment's own `startDate`, not
at the first occurrence's.  For `earlierAppointment`, whose start has offset 1,
and the one occurrence `{36000000, 39600000}`, which has offset 2 at its start
and at its end, `_getProcessedNotNativeTimezoneDates` moves the occurrence one
hour back. -/
theorem getProcessedNotNativeTimezoneDates_first_occurrence_counterexample :
    offsetChangeScheduler.getOffsets 36000000 = offsetChangeScheduler.getOffsets 39600000
      ∧ _getProcessedNotNativeTimezoneDates offsetChangeScheduler
          [{ startDate := 36000000, endDate := 39600000 }] (sampleAdapter earlierAppointment)
        = .ok [{ startDate := 32400000, endDate := 36000000 }]
      ∧ _getProcessedNotNativeTimezoneDates offsetChangeScheduler
          [{ startDate := 36000000, endDate := 39600000 }] (sampleAdapter earlierAppointment)
        ≠ .ok [{ startDate := 36000000, endDate := 39600000 }] := by
  decide!

/-- C19, amended. For every non-empty occurrence list, if the timezone offset at
the appointment's `startDate` equals the offset at the last occurrence's
`endDate`, then `_getProcessedNotNativeTimezoneDates` returns the occurrence
list unchanged. -/
theorem getProcessedNotNativeTimezoneDates_same_offset (scheduler : Scheduler Raw Res Pos)
    (appointmentList : List Occurrence) (appointment : AppointmentAdapter Raw)
    (last : Occurrence) (hlast : appointmentList.getLast? = some last)
    (hoffset : scheduler.getOffsets appointment.startDate = scheduler.getOffsets last.endDate) :
    _getProcessedNotNativeTimezoneDates scheduler appointmentList appointment
      = .ok appointmentList := by
  simp [_getProcessedNotNativeTimezoneDates, hlast, hoffset]

/-- Evaluation of `getProcessedNotNativeTimezoneDates_same_offset` on two
occurrences of `dailyAppointment` in the first two days of the visible range of
`offsetChangeScheduler`, where the offset is 2 throughout. -/
theorem getProcessedNotNativeTimezoneDates_same_offset_witness :
    [({ startDate := 1000, endDate := 2000 } : Occurrence),
        { startDate := 86401000, endDate := 86402000 }].getLast?
        = some { startDate := 86401000, endDate := 86402000 }
      ∧ offsetChangeScheduler.getOffsets (sampleAdapter dailyAppointment).startDate
          = offsetChangeScheduler.getOffsets 86402000
      ∧ _getProcessedNotNativeTimezoneDates offsetChangeScheduler
          [{ startDate := 1000, endDate := 2000 }, { startDate := 86401000, endDate := 86402000 }]
          (sampleAdapter dailyAppointment)
        = .ok [{ startDate := 1000, endDate := 2000 },
               { startDate := 86401000, endDate := 86402000 }] :=
  ⟨by decide, by decide,
    getProcessedNotNativeTimezoneDates_same_offset offsetChangeScheduler
      [{ startDate := 1000, endDate := 2000 }, { startDate := 86401000, endDate := 86402000 }]
      (sampleAdapter dailyAppointment) { startDate := 86401000, endDate := 86402000 }
      (by decide) (by decide)⟩

end NotNativeTimezone

/-! ## Parity of the two strategies -/

section Parity

/-- An appointment that is not recurrent is never reprocessed for a timezone
that is not the local one. -/
theorem canProcessNotNativeTimezoneDates_not_recurrent (scheduler : Scheduler Raw Res Pos)
    (appointment : AppointmentAdapter Raw) (hrecurrent : appointment.isRecurrent = false) :
    BaseStrategy._canProcessNotNativeTimezoneDates scheduler appointment = false := by
  simp [BaseStrategy._canProcessNotNativeTimezoneDates, hrecurrent]

/-- The Base `create` of an appointment that is not recurrent, by stages. -/
theorem base_create_not_recurrent (scheduler : Scheduler Raw Res Pos) (rawAppointment : Raw)
    (hrecurrent : (scheduler.createAppointmentAdapter rawAppointment).isRecurrent = false) :
    BaseStrategy.create scheduler rawAppointment
      = .ok (BaseStrategy.createAppointmentInfos scheduler
          (BaseStrategy.resolvedGridAppointments scheduler rawAppointment)
          (scheduler.getResourcesFromItem rawAppointment)
          (BaseStrategy._isAllDayAppointment scheduler rawAppointment) false) := by
  simp [BaseStrategy.create, canProcessNotNativeTimezoneDates_not_recurrent scheduler _ hrecurrent,
    hrecurrent, BaseStrategy.resolvedGridAppointments, BaseStrategy.projectedGridAppointments,
    bind, Except.bind, pure, Except.pure]

/-- The zero-length correction does not look at the group index. -/
theorem correctZeroLength_tagGroup (groupIndex : Nat) (previous : Option Nat)
    (occurrence : Occurrence) :
    ({ BaseStrategy.correctZeroLength { occurrence with groupIndex := previous } with
        groupIndex := some groupIndex } : Occurrence)
      = tagGroup groupIndex (BaseStrategy.correctZeroLength occurrence) := by
  by_cases hzero : occurrence.startDate = occurrence.endDate <;>
    simp [BaseStrategy.correctZeroLength, tagGroup, hzero]

/-- With a single group index that has a start date, the Virtual strategy's
occurrences of an appointment that is not recurrent are those of the Base
strategy tagged with the group index. -/
theorem virtual_createAppointments_single_group (scheduler : Scheduler Raw Res Pos)
    (appointment : AppointmentAdapter Raw) (resources : Res) (groupIndex : Nat)
    (groupStartDate : Int) (hrecurrent : appointment.isRecurrent = false)
    (hgroup : VirtualStrategy._getGroupIndices scheduler resources = [groupIndex])
    (hstart : scheduler.getGroupStartDate groupIndex = some groupStartDate) :
    VirtualStrategy._createAppointments scheduler appointment resources
      = (BaseStrategy._createAppointments scheduler appointment resources).map
          (tagGroup groupIndex) := by
  have hsingle : ∃ first : Nat,
      (if scheduler.getGroupCount ≠ 0 then VirtualStrategy._getGroupIndices scheduler resources
        else [0]) = [first] := by
    by_cases hcount : scheduler.getGroupCount ≠ 0
    · exact ⟨groupIndex, by rw [if_pos hcount, hgroup]⟩
    · exact ⟨0, by rw [if_neg hcount]⟩
  obtain ⟨first, hfirst⟩ := hsingle
  have hoptions : BaseStrategy._createRecurrenceOptions scheduler appointment (some first)
      = BaseStrategy._createRecurrenceOptions scheduler appointment none := rfl
  have htag : ∀ (previous : Option Nat) (date : Int),
      ({ BaseStrategy.correctZeroLength
            { startDate := date
              endDate := scheduler.createDateFromUTCWithLocalOffset
                (scheduler.createUTCDateWithLocalOffset date + appointment.duration)
              groupIndex := previous } with
          groupIndex := some groupIndex } : Occurrence)
        = tagGroup groupIndex (BaseStrategy.correctZeroLength
            { startDate := date
              endDate := scheduler.createDateFromUTCWithLocalOffset
                (scheduler.createUTCDateWithLocalOffset date + appointment.duration) }) :=
    fun previous date =>
      correctZeroLength_tagGroup groupIndex previous
        { startDate := date
          endDate := scheduler.createDateFromUTCWithLocalOffset
            (scheduler.createUTCDateWithLocalOffset date + appointment.duration) }
  rw [VirtualStrategy._createAppointments, updateGroupIndices_eq_filter, hgroup]
  simp only [hrecurrent, Bool.not_false, if_true, List.filter_cons, hstart, Option.isSome_some,
    List.filter_nil, List.flatMap_cons, List.flatMap_nil, List.append_nil]
  simp only [VirtualStrategy.superCreateAppointments,
    VirtualStrategy._createRecurrenceAppointments, hfirst, List.flatMap_cons, List.flatMap_nil,
    List.append_nil, BaseStrategy._createAppointments, BaseStrategy.appointmentsBeforePostPass,
    BaseStrategy._createRecurrenceAppointments, hrecurrent, Bool.not_false, Bool.true_and,
    List.length_map, hoptions]
  cases scheduler.generateDates
      (BaseStrategy._createRecurrenceOptions scheduler appointment none) with
  | nil =>
    simp only [List.map_nil, List.length_nil, beq_self_eq_true, if_true, List.nil_append,
      List.map_cons]
    exact congrArg (fun occurrence => [occurrence])
      (correctZeroLength_tagGroup groupIndex none
        { startDate := appointment.startDate, endDate := appointment.endDate })
  | cons date rest =>
    have hlength : ((rest.length + 1 == 0) = true) = False := by simp
    simp only [List.length_cons, hlength, if_false, List.map_map]
    apply List.map_congr_left
    intro generated _
    exact htag (some first) generated

/-- Projection to the grid keeps the tag of the occurrences. -/
theorem createGridAppointmentList_tagGroup (scheduler : Scheduler Raw Res Pos)
    (appointmentList : List Occurrence) (appointment : AppointmentAdapter Raw)
    (groupIndex : Nat) :
    BaseStrategy._createGridAppointmentList scheduler
        (appointmentList.map (tagGroup groupIndex)) appointment
      = (BaseStrategy._createGridAppointmentList scheduler appointmentList appointment).map
          (tagGridGroup groupIndex) := by
  simp only [BaseStrategy._createGridAppointmentList, List.map_map]
  apply List.map_congr_left
  intro source _
  simp only [Function.comp, tagGridGroup, tagGroup]
  split <;> rfl

/-- Splitting keeps the tag of the grid occurrences. -/
theorem getProcessedLongAppointmentsIfRequired_tagGridGroup
    (scheduler : Scheduler Raw Res Pos) (gridAppointmentList : List GridAppointment)
    (appointment : AppointmentAdapter Raw) (groupIndex : Nat) :
    BaseStrategy._getProcessedLongAppointmentsIfRequired scheduler
        (gridAppointmentList.map (tagGridGroup groupIndex)) appointment
      = (BaseStrategy._getProcessedLongAppointmentsIfRequired scheduler gridAppointmentList
          appointment).map (tagGridGroup groupIndex) := by
  unfold BaseStrategy._getProcessedLongAppointmentsIfRequired
  by_cases hsplit : scheduler.needSeparateAppointment
      (scheduler.appointmentTakesAllDay appointment.source) = true
  · simp only [hsplit, if_true]
    induction gridAppointmentList with
    | nil => rfl
    | cons gridAppointment rest ih =>
      simp only [List.map_cons, List.flatMap_cons, List.map_append, ih, List.map_map]
      rfl
  · simp only [hsplit]
    rfl

/-- A start that is no earlier than the first view date and that the rounding
leaves in place is the result date of the cropper. -/
theorem getAppointmentResultDate_inside (scheduler : Scheduler Raw Res Pos)
    (gridAppointment : GridAppointment) (rawAppointment : Raw) (startDayHour : ℚ)
    (firstViewDate : Int) (hfirst : firstViewDate ≤ gridAppointment.startDate)
    (hround : scheduler.roundDateByStartDayHour gridAppointment.startDate startDayHour
      = gridAppointment.startDate) :
    BaseStrategy._getAppointmentResultDate scheduler
        { appointment := gridAppointment
          rawAppointment := rawAppointment
          startDate := gridAppointment.startDate
          startDayHour := startDayHour
          firstViewDate := firstViewDate }
      = gridAppointment.startDate := by
  have hnotBefore : ¬ gridAppointment.startDate < firstViewDate := not_lt.mpr hfirst
  simp [BaseStrategy._getAppointmentResultDate, normalizeDate, hnotBefore, hround]

/-- The Base cropper leaves grid occurrences inside the viewport as they are. -/
theorem base_crop_inside (scheduler : Scheduler Raw Res Pos)
    (appointments : List GridAppointment) (rawAppointment : Raw) (isAllDay : Bool)
    (groupIndex : Nat)
    (hinside : ∀ gridAppointment ∈ appointments,
      liesInsideViewport scheduler rawAppointment groupIndex gridAppointment) :
    BaseStrategy._cropAppointmentsByStartDayHour scheduler appointments rawAppointment isAllDay
      = appointments := by
  unfold BaseStrategy._cropAppointmentsByStartDayHour
  conv_rhs => rw [← List.map_id appointments]
  apply List.map_congr_left
  intro gridAppointment hmem
  obtain ⟨firstViewDate, _, _, hview, _, hround, _⟩ := hinside gridAppointment hmem
  have hresult := getAppointmentResultDate_inside scheduler gridAppointment rawAppointment
    scheduler.startDayHour scheduler.getStartViewDate hview hround
  simp only [BaseStrategy._getAppointmentFirstViewDate, BaseStrategy._getViewStartDayHour,
    hresult, id]

/-- The Virtual cropper keeps grid occurrences inside the viewport, as they
are. -/
theorem virtual_crop_inside (scheduler : Scheduler Raw Res Pos)
    (appointments : List GridAppointment) (rawAppointment : Raw) (groupIndex : Nat)
    (hinside : ∀ gridAppointment ∈ appointments,
      liesInsideViewport scheduler rawAppointment groupIndex gridAppointment) :
    VirtualStrategy._cropAppointmentsByStartDayHour scheduler
        (appointments.map (tagGridGroup groupIndex)) rawAppointment
        (BaseStrategy._isAllDayAppointment scheduler rawAppointment)
      = appointments.map (tagGridGroup groupIndex) := by
  unfold VirtualStrategy._cropAppointmentsByStartDayHour
  induction appointments with
  | nil => rfl
  | cons gridAppointment rest ih =>
    have hrest := ih (fun other hother => hinside other (List.mem_cons_of_mem _ hother))
    obtain ⟨firstViewDate, hcell, hfirst, _, hround, _, hkeep⟩ :=
      hinside gridAppointment (List.mem_cons_self _ _)
    have hfirstView : VirtualStrategy._getAppointmentFirstViewDate scheduler
        (tagGridGroup groupIndex gridAppointment) rawAppointment = some firstViewDate := hcell
    have hresult := getAppointmentResultDate_inside scheduler
      (tagGridGroup groupIndex gridAppointment) rawAppointment
      (VirtualStrategy._getViewStartDayHour scheduler firstViewDate) firstViewDate hfirst hround
    rw [List.map_cons, List.filterMap_cons, hrest]
    simp only [hfirstView, hresult]
    have hkept : (if (!BaseStrategy._isAllDayAppointment scheduler rawAppointment) = true then
          decide ((tagGridGroup groupIndex gridAppointment).endDate
            > (tagGridGroup groupIndex gridAppointment).startDate)
        else true) = true := by
      rcases hkeep with hallDay | hlater
      · simp [hallDay]
      · have : (tagGridGroup groupIndex gridAppointment).endDate
            > (tagGridGroup groupIndex gridAppointment).startDate := hlater
        simp [this]
    simp only [hkept, if_true]

/-- On grid occurrences that intersect the window of their single group, and
for which the work space has as many coordinates with the group index as
without, the two strategies resolve coordinates for the same start dates. -/
theorem createAppointmentInfos_parity (scheduler : Scheduler Raw Res Pos)
    (gridAppointments : List GridAppointment) (resources : Res) (allDay : Bool)
    (groupIndex : Nat)
    (hwindow : allDay = true ∨ ∀ gridAppointment ∈ gridAppointments,
      scheduler.isGroupIntersectDateInterval (some groupIndex) gridAppointment.startDate
        gridAppointment.endDate = true)
    (hcoordinates : ∀ gridAppointment ∈ gridAppointments,
      (scheduler.getCoordinatesByDateInGroup gridAppointment.startDate resources allDay
          (some groupIndex)).length
        = (scheduler.getCoordinatesByDateInGroup gridAppointment.startDate resources allDay
            none).length) :
    (VirtualStrategy.createAppointmentInfos scheduler
        (gridAppointments.map (tagGridGroup groupIndex)) resources allDay false).map
        (fun coordinate => coordinate.info.appointment.startDate)
      = (BaseStrategy.createAppointmentInfos scheduler gridAppointments resources allDay
          false).map (fun coordinate => coordinate.info.appointment.startDate) := by
  have hfilter : (if allDay = true then gridAppointments.map (tagGridGroup groupIndex)
      else (gridAppointments.map (tagGridGroup groupIndex)).filter fun gridAppointment =>
        scheduler.isGroupIntersectDateInterval gridAppointment.source.groupIndex
          gridAppointment.startDate gridAppointment.endDate)
      = gridAppointments.map (tagGridGroup groupIndex) := by
    rcases hwindow with hallDay | hintersects
    · simp [hallDay]
    · split
      · rfl
      · rw [List.filter_eq_self]
        intro tagged htagged
        obtain ⟨gridAppointment, hmem, rfl⟩ := List.mem_map.mp htagged
        exact hintersects gridAppointment hmem
  simp only [VirtualStrategy.createAppointmentInfos, hfilter, Bool.false_eq_true, if_false,
    BaseStrategy.createAppointmentInfos, VirtualStrategy.getCoordinates,
    BaseStrategy.getCoordinates, Bool.not_false, if_true]
  induction gridAppointments with
  | nil => rfl
  | cons gridAppointment rest ih =>
    have hrest := ih
      (hwindow.imp id fun hall other hother => hall other (List.mem_cons_of_mem _ hother))
      (fun other hother => hcoordinates other (List.mem_cons_of_mem _ hother))
      (by
        rcases hwindow with hallDay | hintersects
        · simp [hallDay]
        · split
          · rfl
          · rw [List.filter_eq_self]
            intro tagged htagged
            obtain ⟨other, hother, rfl⟩ := List.mem_map.mp htagged
            exact hintersects other (List.mem_cons_of_mem _ hother))
    have hhead := hcoordinates gridAppointment (List.mem_cons_self _ _)
    simp only [List.map_cons, List.flatMap_cons, List.map_append, List.map_map, hrest]
    congr 1
    have hconstant : ∀ (positions : List Pos) (appointment : GridAppointment),
        positions.map ((fun coordinate : Coordinate Pos => coordinate.info.appointment.startDate)
          ∘ fun position =>
            { position := position
              info := { appointment := appointment, sourceAppointment := appointment.source } })
          = List.replicate positions.length appointment.startDate := by
      intro positions appointment
      induction positions with
      | nil => rfl
      | cons position others ihPositions =>
        rw [List.map_cons, ihPositions, List.length_cons, List.replicate_succ]
        rfl
    rw [hconstant, hconstant]
    show List.replicate _ gridAppointment.startDate = List.replicate _ gridAppointment.startDate
    exact congrArg (fun n => List.replicate n gridAppointment.startDate) hhead

/-- C17. For an appointment that is not recurrent, whose resources resolve to
the single group index `groupIndex` with a group start date, whose projected
grid occurrences lie inside the viewport (`liesInsideViewport`), and whose grid
occurrences left after cropping and splitting intersect the rendered window of
the group (or are all-day) and have as many coordinates in the work space with
the group index as without: `create` under the Base strategy and `create` under
the Virtual strategy, on the same snapshot, both return a list, the two lists
have the same length and, position by position, the same
`info.appointment.startDate`. -/
theorem create_parity (scheduler : Scheduler Raw Res Pos) (rawAppointment : Raw)
    (groupIndex : Nat) (groupStartDate : Int)
    (hrecurrent : (scheduler.createAppointmentAdapter rawAppointment).isRecurrent = false)
    (hgroup : VirtualStrategy._getGroupIndices scheduler
      (scheduler.getResourcesFromItem rawAppointment) = [groupIndex])
    (hstart : scheduler.getGroupStartDate groupIndex = some groupStartDate)
    (hinside : ∀ gridAppointment ∈ BaseStrategy.projectedGridAppointments scheduler
        rawAppointment,
      liesInsideViewport scheduler rawAppointment groupIndex gridAppointment)
    (hwindow : BaseStrategy._isAllDayAppointment scheduler rawAppointment = true
      ∨ ∀ gridAppointment ∈ BaseStrategy.resolvedGridAppointments scheduler rawAppointment,
          scheduler.isGroupIntersectDateInterval (some groupIndex) gridAppointment.startDate
            gridAppointment.endDate = true)
    (hcoordinates : ∀ gridAppointment ∈ BaseStrategy.resolvedGridAppointments scheduler
        rawAppointment,
      (scheduler.getCoordinatesByDateInGroup gridAppointment.startDate
          (scheduler.getResourcesFromItem rawAppointment)
          (BaseStrategy._isAllDayAppointment scheduler rawAppointment) (some groupIndex)).length
        = (scheduler.getCoordinatesByDateInGroup gridAppointment.startDate
            (scheduler.getResourcesFromItem rawAppointment)
            (BaseStrategy._isAllDayAppointment scheduler rawAppointment) none).length) :
    ∃ baseCoordinates virtualCoordinates : List (Coordinate Pos),
      BaseStrategy.create scheduler rawAppointment = .ok baseCoordinates
        ∧ VirtualStrategy.create scheduler rawAppointment = .ok virtualCoordinates
        ∧ virtualCoordinates.length = baseCoordinates.length
        ∧ virtualCoordinates.map (fun coordinate => coordinate.info.appointment.startDate)
          = baseCoordinates.map (fun coordinate => coordinate.info.appointment.startDate) := by
  have hresolved : BaseStrategy.resolvedGridAppointments scheduler rawAppointment
      = BaseStrategy._getProcessedLongAppointmentsIfRequired scheduler
          (BaseStrategy.projectedGridAppointments scheduler rawAppointment)
          (scheduler.createAppointmentAdapter rawAppointment) := by
    rw [BaseStrategy.resolvedGridAppointments,
      base_crop_inside scheduler _ rawAppointment _ groupIndex hinside]
  have hvirtual : VirtualStrategy.create scheduler rawAppointment
      = .ok (VirtualStrategy.createAppointmentInfos scheduler
          ((BaseStrategy.resolvedGridAppointments scheduler rawAppointment).map
            (tagGridGroup groupIndex))
          (scheduler.getResourcesFromItem rawAppointment)
          (BaseStrategy._isAllDayAppointment scheduler rawAppointment) false) := by
    have hprojected : BaseStrategy._createGridAppointmentList scheduler
        (VirtualStrategy._createAppointments scheduler
          (scheduler.createAppointmentAdapter rawAppointment)
          (scheduler.getResourcesFromItem rawAppointment))
        (scheduler.createAppointmentAdapter rawAppointment)
        = (BaseStrategy.projectedGridAppointments scheduler rawAppointment).map
            (tagGridGroup groupIndex) := by
      rw [virtual_createAppointments_single_group scheduler _ _ groupIndex groupStartDate
          hrecurrent hgroup hstart,
        createGridAppointmentList_tagGroup]
      rfl
    simp only [VirtualStrategy.create,
      canProcessNotNativeTimezoneDates_not_recurrent scheduler _ hrecurrent, hrecurrent,
      Bool.false_eq_true, if_false, bind, Except.bind, pure, Except.pure, hprojected,
      virtual_crop_inside scheduler _ rawAppointment groupIndex hinside,
      getProcessedLongAppointmentsIfRequired_tagGridGroup, hresolved]
  have hdates := createAppointmentInfos_parity scheduler
    (BaseStrategy.resolvedGridAppointments scheduler rawAppointment)
    (scheduler.getResourcesFromItem rawAppointment)
    (BaseStrategy._isAllDayAppointment scheduler rawAppointment) groupIndex hwindow hcoordinates
  refine ⟨_, _, base_create_not_recurrent scheduler rawAppointment hrecurrent, hvirtual, ?_,
    hdates⟩
  have hlength := congrArg List.length hdates
  simpa only [List.length_map] using hlength

/-- On the sample snapshot the projected grid occurrence of `singleAppointment`
lies inside the viewport of group 0. -/
theorem singleAppointment_liesInsideViewport :
    ∀ gridAppointment ∈ BaseStrategy.projectedGridAppointments (sampleScheduler [])
        singleAppointment,
      liesInsideViewport (sampleScheduler []) singleAppointment 0 gridAppointment := by
  have hprojected : BaseStrategy.projectedGridAppointments (sampleScheduler [])
      singleAppointment
      = [{ startDate := 1000, endDate := 2000, source := { startDate := 1000, endDate := 2000 } }] := by
    decide
  intro gridAppointment hmem
  rw [hprojected, List.mem_singleton] at hmem
  subst hmem
  exact ⟨0, by decide, by decide, by decide, by decide!, by decide!, Or.inr (by decide)⟩

/-- Evaluation of `create_parity` on the sample snapshot for
`singleAppointment`: both strategies return one coordinate for the start date
1000. -/
theorem create_parity_witness :
    ((sampleScheduler []).createAppointmentAdapter singleAppointment).isRecurrent = false
      ∧ VirtualStrategy._getGroupIndices (sampleScheduler [])
          ((sampleScheduler []).getResourcesFromItem singleAppointment) = [0]
      ∧ (sampleScheduler []).getGroupStartDate 0 = some 0
      ∧ (BaseStrategy.create (sampleScheduler []) singleAppointment).toOption.map
          (fun coordinates => coordinates.map
            fun coordinate => coordinate.info.appointment.startDate) = some [1000]
      ∧ (VirtualStrategy.create (sampleScheduler []) singleAppointment).toOption.map
          (fun coordinates => coordinates.map
            fun coordinate => coordinate.info.appointment.startDate) = some [1000]
      ∧ ∃ baseCoordinates virtualCoordinates : List (Coordinate Int),
          BaseStrategy.create (sampleScheduler []) singleAppointment = .ok baseCoordinates
            ∧ VirtualStrategy.create (sampleScheduler []) singleAppointment
              = .ok virtualCoordinates
            ∧ virtualCoordinates.length = baseCoordinates.length
            ∧ virtualCoordinates.map (fun coordinate => coordinate.info.appointment.startDate)
              = baseCoordinates.map
                  (fun coordinate => coordinate.info.appointment.startDate) :=
  ⟨by decide, by decide, by decide, by decide!, by decide!,
    create_parity (sampleScheduler []) singleAppointment 0 0 (by decide) (by decide) (by decide)
      singleAppointment_liesInsideViewport (Or.inr fun _ _ => rfl) (fun _ _ => rfl)⟩

end Parity

/-! ## The two branches of `_getAppointmentResultDate` -/

section ResultDate

open BaseStrategy

/-- C21. With `normalizeDate(d, min)` returning `min` when `d < min` and `d`
otherwise, and `options.startDate` a copy of `appointment.startDate`, the
all-day branch and the other branch of `_getAppointmentResultDate` normalize to
the same date, the later of `appointment.startDate` and `firstViewDate`; the
result is `roundDateByStartDayHour` of that date at `startDayHour`, and it is
the same whatever `appointmentTakesAllDay` answers. -/
theorem getAppointmentResultDate_branches (scheduler : Scheduler Raw Res Pos)
    (options : ResultDateOptions Raw)
    (hcopy : options.startDate = options.appointment.startDate) :
    normalizeDate options.startDate options.firstViewDate
        = max options.appointment.startDate options.firstViewDate
      ∧ normalizeDate options.appointment.startDate
          (if options.startDate < options.firstViewDate then options.firstViewDate
            else options.startDate)
        = max options.appointment.startDate options.firstViewDate
      ∧ _getAppointmentResultDate scheduler options
        = scheduler.roundDateByStartDayHour
            (max options.appointment.startDate options.firstViewDate) options.startDayHour
      ∧ ∀ takesAllDay : Raw → Bool,
          _getAppointmentResultDate { scheduler with appointmentTakesAllDay := takesAllDay }
              options
            = _getAppointmentResultDate scheduler options := by
  have hallDay : normalizeDate options.startDate options.firstViewDate
      = max options.appointment.startDate options.firstViewDate := by
    rw [hcopy]
    unfold normalizeDate
    split
    · rename_i hbefore
      exact (max_eq_right (le_of_lt hbefore)).symm
    · rename_i hnotBefore
      exact (max_eq_left (not_lt.mp hnotBefore)).symm
  have hother : normalizeDate options.appointment.startDate
      (if options.startDate < options.firstViewDate then options.firstViewDate
        else options.startDate)
      = max options.appointment.startDate options.firstViewDate := by
    rw [hcopy]
    unfold normalizeDate
    by_cases hbefore : options.appointment.startDate < options.firstViewDate
    · simp only [hbefore, if_true]
      exact (max_eq_right (le_of_lt hbefore)).symm
    · simp only [hbefore, if_false, lt_self_iff_false]
      exact (max_eq_left (not_lt.mp hbefore)).symm
  have hresult : ∀ other : Scheduler Raw Res Pos,
      other.roundDateByStartDayHour = scheduler.roundDateByStartDayHour →
      _getAppointmentResultDate other options
        = scheduler.roundDateByStartDayHour
            (max options.appointment.startDate options.firstViewDate)
            options.startDayHour := by
    intro other hround
    unfold _getAppointmentResultDate
    by_cases htakes : other.appointmentTakesAllDay options.rawAppointment = true
    · simp only [htakes, if_true, hallDay, hround]
    · simp only [htakes, Bool.false_eq_true, if_false, hother, hround]
  refine ⟨hallDay, hother, hresult scheduler rfl, ?_⟩
  intro takesAllDay
  rw [hresult scheduler rfl, hresult { scheduler with appointmentTakesAllDay := takesAllDay } rfl]

/-- Evaluation of `getAppointmentResultDate_branches` with the day starting at
9, the first view date 0 and a grid occurrence that starts at 1000: for an
all-day appointment and for one that is not, the result is 32400000, hour 9 of
the first day. -/
theorem getAppointmentResultDate_branches_witness :
    (sampleResultDateOptions { startDate := 1000, endDate := 36000000, allDay := true }).startDate
        = (sampleResultDateOptions
            { startDate := 1000, endDate := 36000000, allDay := true }).appointment.startDate
      ∧ _getAppointmentResultDate nineScheduler
          (sampleResultDateOptions { startDate := 1000, endDate := 36000000, allDay := true })
        = 32400000
      ∧ _getAppointmentResultDate nineScheduler
          (sampleResultDateOptions { startDate := 1000, endDate := 36000000, allDay := false })
        = 32400000
      ∧ (normalizeDate
            (sampleResultDateOptions
              { startDate := 1000, endDate := 36000000, allDay := true }).startDate
            (sampleResultDateOptions
              { startDate := 1000, endDate := 36000000, allDay := true }).firstViewDate
          = max
              (sampleResultDateOptions
                { startDate := 1000, endDate := 36000000, allDay := true }).appointment.startDate
              (sampleResultDateOptions
                { startDate := 1000, endDate := 36000000, allDay := true }).firstViewDate
        ∧ normalizeDate
            (sampleResultDateOptions
              { startDate := 1000, endDate := 36000000, allDay := true }).appointment.startDate
            (if (sampleResultDateOptions
                  { startDate := 1000, endDate := 36000000, allDay := true }).startDate
                < (sampleResultDateOptions
                  { startDate := 1000, endDate := 36000000, allDay := true }).firstViewDate then
              (sampleResultDateOptions
                { startDate := 1000, endDate := 36000000, allDay := true }).firstViewDate
            else
              (sampleResultDateOptions
                { startDate := 1000, endDate := 36000000, allDay := true }).startDate)
          = max
              (sampleResultDateOptions
                { startDate := 1000, endDate := 36000000, allDay := true }).appointment.startDate
              (sampleResultDateOptions
                { startDate := 1000, endDate := 36000000, allDay := true }).firstViewDate
        ∧ _getAppointmentResultDate nineScheduler
            (sampleResultDateOptions { startDate := 1000, endDate := 36000000, allDay := true })
          = nineScheduler.roundDateByStartDayHour
              (max
                (sampleResultDateOptions
                  { startDate := 1000, endDate := 36000000, allDay := true }).appointment.startDate
                (sampleResultDateOptions
                  { startDate := 1000, endDate := 36000000, allDay := true }).firstViewDate)
              (sampleResultDateOptions
                { startDate := 1000, endDate := 36000000, allDay := true }).startDayHour
        ∧ ∀ takesAllDay : RawAppointment → Bool,
            _getAppointmentResultDate
                { nineScheduler with appointmentTakesAllDay := takesAllDay }
                (sampleResultDateOptions
                  { startDate := 1000, endDate := 36000000, allDay := true })
              = _getAppointmentResultDate nineScheduler
                  (sampleResultDateOptions
                    { startDate := 1000, endDate := 36000000, allDay := true })) :=
  ⟨by decide, by decide!, by decide!,
    getAppointmentResultDate_branches nineScheduler
      (sampleResultDateOptions { startDate := 1000, endDate := 36000000, allDay := true })
      (by decide)⟩

end ResultDate

end AppointmentSettingsGenerator
